import Mathlib

/-!
Verification of the byte-level protocol engine of the `ble_sniffer` crate
(`src/ble_sniffer.rs`): the SLIP-style frame codec (`get_packet_bytes`,
`add_bytes_to_slip`) and the sniffer packet decoder (`BlePacket::from`).

Machine bytes (`u8`) are modelled as `Nat`; every arithmetic operation the
source performs on a byte (`&`, `>>`, `|`, `== k`) is total on `Nat` and
agrees with the `u8` semantics for values below 256, and no operation in
the translated code can overflow for in-range inputs (all counters are
bounded by the 255-bounded payload length).  `Vec<u8>` becomes `List Nat`
(push = append at the right end), and the decoder's `for` loops become
`List.foldl` over an explicit state record holding exactly the local
mutable variables of the source.
-/

set_option maxRecDepth 10000

-- UART protocol packet codes (ble_sniffer.rs lines 17-22)
def SLIP_START : Nat := 0xAB
def SLIP_END : Nat := 0xBC
def SLIP_ESC : Nat := 0xCD
def SLIP_ESC_START : Nat := SLIP_START + 1
def SLIP_ESC_END : Nat := SLIP_END + 1
def SLIP_ESC_ESC : Nat := SLIP_ESC + 1

def HEADER_LENGTH : Nat := 6
def EVENT_PACKET_ADV_PDU : Nat := 0x02
def EVENT_PACKET_DATA_PDU : Nat := 0x06

def ADV_TYPE_ADV_NONCONN_IND : Nat := 0x2
def ADV_TYPE_SCAN_REQ : Nat := 0x3

/-- State of the SLIP frame-extraction loop of `get_packet_bytes`
(ble_sniffer.rs lines 503-537): the accumulated frame list, the bytes of
the frame currently open, the two state flags and the byte counter. -/
structure SlipState where
  packet_list : List (List Nat)
  packet_bytes : List Nat
  packet_start : Bool
  previous_byte_is_esc : Bool
  read_index : Nat
deriving Repr, DecidableEq

/-- One iteration of the `for b in bytes` loop of `get_packet_bytes`
(ble_sniffer.rs lines 509-535), translated branch for branch. -/
def slipStep (s : SlipState) (b : Nat) : SlipState :=
  let s := { s with read_index := s.read_index + 1 }
  if s.packet_start = false then
    { s with packet_start := decide (b = SLIP_START) }
  else if b = SLIP_END then
    { s with packet_start := false,
             packet_list := s.packet_list ++ [s.packet_bytes],
             packet_bytes := [] }
  else if b = SLIP_ESC then
    { s with previous_byte_is_esc := true }
  else if s.previous_byte_is_esc = true then
    { s with previous_byte_is_esc := false,
             packet_bytes := s.packet_bytes ++
               [if b = SLIP_ESC_START then SLIP_START
                else if b = SLIP_ESC_END then SLIP_END
                else if b = SLIP_ESC_ESC then SLIP_ESC
                else b] }
  else
    { s with packet_bytes := s.packet_bytes ++ [b] }

/-- `get_packet_bytes` (ble_sniffer.rs lines 503-537). -/
def get_packet_bytes (bytes : List Nat) : List (List Nat) × Nat :=
  let s := bytes.foldl slipStep ⟨[], [], false, false, 0⟩
  (s.packet_list, s.read_index)

/-- `add_bytes_to_slip` (ble_sniffer.rs lines 546-553): append one payload
byte to an outgoing frame, escaping the three reserved values. -/
def add_bytes_to_slip (packet_bytes : List Nat) (content_byte : Nat) : List Nat :=
  if content_byte = SLIP_START ∨ content_byte = SLIP_END ∨ content_byte = SLIP_ESC then
    packet_bytes ++ [SLIP_ESC, content_byte + 1]
  else
    packet_bytes ++ [content_byte]

/-- A whole outgoing frame for payload `p`: START, the escaped payload
bytes produced by `add_bytes_to_slip`, END (the framing convention of
`make_send_bytes`, ble_sniffer.rs lines 555-569). -/
def encode_slip_frame (p : List Nat) : List Nat :=
  SLIP_START :: (p.foldl add_bytes_to_slip [] ++ [SLIP_END])

/-- The escaped body of a frame, as a structural recursion (shown equal to
the `add_bytes_to_slip` fold below). -/
def escapedBytes : List Nat → List Nat
  | [] => []
  | b :: rest =>
    (if b = SLIP_START ∨ b = SLIP_END ∨ b = SLIP_ESC
      then [SLIP_ESC, b + 1] else [b]) ++ escapedBytes rest

theorem add_bytes_to_slip_foldl_append (p : List Nat) (acc : List Nat) :
    p.foldl add_bytes_to_slip acc = acc ++ p.foldl add_bytes_to_slip [] := by
  induction p generalizing acc with
  | nil => simp
  | cons b rest ih =>
    simp only [List.foldl_cons]
    rw [ih, ih (add_bytes_to_slip [] b)]
    unfold add_bytes_to_slip
    split <;> simp

theorem foldl_add_bytes_to_slip_eq_escapedBytes (p : List Nat) :
    p.foldl add_bytes_to_slip [] = escapedBytes p := by
  induction p with
  | nil => rfl
  | cons b rest ih =>
    simp only [List.foldl_cons, escapedBytes]
    rw [add_bytes_to_slip_foldl_append, ih]
    unfold add_bytes_to_slip
    split <;> simp

/-- Inside a frame, an END byte closes the frame and emits the collected
payload — even when an escape is pending, since `get_packet_bytes` tests
for END before consulting `previous_byte_is_esc`. -/
theorem slipStep_end (pl : List (List Nat)) (pb : List Nat) (e : Bool) (ri : Nat) :
    slipStep ⟨pl, pb, true, e, ri⟩ SLIP_END = ⟨pl ++ [pb], [], false, e, ri + 1⟩ := by
  simp [slipStep]

/-- Inside a frame, an ESCAPE byte arms the escaped state (whether or not
it was already armed) and consumes no payload byte. -/
theorem slipStep_esc (pl : List (List Nat)) (pb : List Nat) (e : Bool) (ri : Nat) :
    slipStep ⟨pl, pb, true, e, ri⟩ SLIP_ESC = ⟨pl, pb, true, true, ri + 1⟩ := by
  simp [slipStep, SLIP_ESC, SLIP_END]

/-- Inside a frame with the escaped state armed, any byte other than END
and ESCAPE is appended to the payload (the three escape codes are mapped
back to their literals, any other byte is kept unchanged) and the escaped
state is cleared. -/
theorem slipStep_escaped (pl : List (List Nat)) (pb : List Nat) (ri : Nat) (b : Nat)
    (hbe : b ≠ SLIP_END) (hbc : b ≠ SLIP_ESC) :
    slipStep ⟨pl, pb, true, true, ri⟩ b =
      ⟨pl, pb ++
        [if b = SLIP_ESC_START then SLIP_START
         else if b = SLIP_ESC_END then SLIP_END
         else if b = SLIP_ESC_ESC then SLIP_ESC
         else b], true, false, ri + 1⟩ := by
  simp [slipStep, hbe, hbc]

/-- Inside a frame with no escape pending, an ordinary byte is appended to
the payload unchanged. -/
theorem slipStep_plain (pl : List (List Nat)) (pb : List Nat) (ri : Nat) (b : Nat)
    (hbe : b ≠ SLIP_END) (hbc : b ≠ SLIP_ESC) :
    slipStep ⟨pl, pb, true, false, ri⟩ b = ⟨pl, pb ++ [b], true, false, ri + 1⟩ := by
  simp [slipStep, hbe, hbc]

/-- Feeding the escaped body of a payload to the decoder while a frame is
open and no escape is pending appends exactly the payload to the open
frame, leaves the frame open, and keeps no escape pending. -/
theorem slip_decode_escaped (p : List Nat) :
    ∀ (pl : List (List Nat)) (pb : List Nat) (ri : Nat),
    (escapedBytes p).foldl slipStep ⟨pl, pb, true, false, ri⟩ =
      ⟨pl, pb ++ p, true, false, ri + (escapedBytes p).length⟩ := by
  induction p with
  | nil =>
    intro pl pb ri
    simp [escapedBytes]
  | cons b rest ih =>
    intro pl pb ri
    by_cases hb : b = SLIP_START ∨ b = SLIP_END ∨ b = SLIP_ESC
    · -- escaped on the wire as ESC, b+1
      simp only [escapedBytes, if_pos hb, List.cons_append, List.nil_append,
        List.foldl_cons]
      rw [slipStep_esc]
      have hbe : b + 1 ≠ SLIP_END := by
        rcases hb with h | h | h <;> subst h <;> simp [SLIP_START, SLIP_END, SLIP_ESC]
      have hbc : b + 1 ≠ SLIP_ESC := by
        rcases hb with h | h | h <;> subst h <;> simp [SLIP_START, SLIP_END, SLIP_ESC]
      rw [slipStep_escaped _ _ _ _ hbe hbc]
      have hmap : (if b + 1 = SLIP_ESC_START then SLIP_START
          else if b + 1 = SLIP_ESC_END then SLIP_END
          else if b + 1 = SLIP_ESC_ESC then SLIP_ESC
          else b + 1) = b := by
        rcases hb with h | h | h <;> subst h <;>
          simp [SLIP_START, SLIP_END, SLIP_ESC, SLIP_ESC_START, SLIP_ESC_END, SLIP_ESC_ESC]
      rw [hmap, ih]
      simp only [escapedBytes, if_pos hb, List.length_cons, SlipState.mk.injEq,
        List.append_assoc, List.cons_append, List.nil_append, true_and, and_true]
      omega
    · push_neg at hb
      obtain ⟨hb1, hb2, hb3⟩ := hb
      have hne : ¬(b = SLIP_START ∨ b = SLIP_END ∨ b = SLIP_ESC) := by
        push_neg; exact ⟨hb1, hb2, hb3⟩
      simp only [escapedBytes, if_neg hne, List.cons_append, List.nil_append,
        List.foldl_cons]
      rw [slipStep_plain _ _ _ _ hb2 hb3, ih]
      simp only [escapedBytes, if_neg hne, List.length_cons, SlipState.mk.injEq,
        List.append_assoc, List.cons_append, List.nil_append, true_and, and_true]
      omega

/-- Claim C2: encoding any payload into one frame with `add_bytes_to_slip`
(START, escaped bytes, END) and decoding it with `get_packet_bytes` yields
exactly one extracted frame whose contents equal the original payload (and
the reported read index covers the whole frame). -/
theorem claim_C2_roundtrip (p : List Nat) :
    get_packet_bytes (encode_slip_frame p) =
      ([p], (encode_slip_frame p).length) := by
  unfold get_packet_bytes encode_slip_frame
  rw [foldl_add_bytes_to_slip_eq_escapedBytes]
  simp only [List.foldl_cons, List.foldl_append]
  have hstart : slipStep ⟨[], [], false, false, 0⟩ SLIP_START =
      ⟨[], [], true, false, 1⟩ := by
    simp [slipStep]
  rw [hstart, slip_decode_escaped p [] [] 1]
  simp only [List.foldl_cons, List.foldl_nil, slipStep_end]
  simp [encode_slip_frame]
  omega

/-- Claim C7 counterexample: the wire sequence START, ESCAPE, END closes
the frame immediately — the decoder emits one (empty) frame, so the byte
following an ESCAPE *is* interpreted as a frame delimiter when it is the
raw END byte, contrary to the claim. -/
theorem claim_C7_counterexample :
    get_packet_bytes [0xAB, 0xCD, 0xBC] = ([[]], 3) := by
  decide

/-- Claim C7 (amended): inside a frame, ESCAPE arms the escaped state; if
the next byte is neither raw END nor raw ESCAPE it is appended to the
payload (mapped back to START/END/ESCAPE when it equals 0xAC/0xBD/0xCE,
unchanged otherwise) and the escaped state is cleared, and in particular
ESCAPE, 0xBD reproduces payload byte 0xBC without closing the frame; but a
raw END byte closes the frame even with the escape armed, and a raw ESCAPE
merely re-arms the state. -/
theorem claim_C7_amended :
    (∀ (pl : List (List Nat)) (pb : List Nat) (e : Bool) (ri : Nat),
      slipStep ⟨pl, pb, true, e, ri⟩ SLIP_ESC = ⟨pl, pb, true, true, ri + 1⟩)
    ∧ (∀ (pl : List (List Nat)) (pb : List Nat) (ri : Nat) (b : Nat),
        b ≠ SLIP_END → b ≠ SLIP_ESC →
        slipStep ⟨pl, pb, true, true, ri⟩ b =
          ⟨pl, pb ++
            [if b = SLIP_ESC_START then SLIP_START
             else if b = SLIP_ESC_END then SLIP_END
             else if b = SLIP_ESC_ESC then SLIP_ESC
             else b], true, false, ri + 1⟩)
    ∧ (∀ (pl : List (List Nat)) (pb : List Nat) (e : Bool) (ri : Nat),
        slipStep ⟨pl, pb, true, e, ri⟩ SLIP_END = ⟨pl ++ [pb], [], false, e, ri + 1⟩)
    ∧ (List.foldl slipStep ⟨[], [], false, false, 0⟩ [0xAB, 0xCD, 0xBD] =
        ⟨[], [0xBC], true, false, 3⟩) := by
  refine ⟨slipStep_esc, ?_, slipStep_end, by decide⟩
  intro pl pb ri b hbe hbc
  exact slipStep_escaped pl pb ri b hbe hbc

/-- Claim C7 witness: the amended theorem applied at a concrete escaped
byte — 0xBD after an armed escape appends the literal END byte 0xBC. -/
theorem claim_C7_witness :
    slipStep ⟨[], [0x11], true, true, 2⟩ 0xBD = ⟨[], [0x11, 0xBC], true, false, 3⟩ := by
  have h := claim_C7_amended.2.1 [] [0x11] 2 0xBD (by decide) (by decide)
  simpa using h

/-- `BlePacketHeaderAdv` (ble_sniffer.rs lines 99-102). -/
structure BlePacketHeaderAdv where
  aux_type : Nat
  address_resolved : Bool
deriving Repr, DecidableEq

/-- `BlePacketHeaderData` (ble_sniffer.rs lines 104-108). -/
structure BlePacketHeaderData where
  direction_to_slave : Bool
  encrypted : Bool
  mic_ok : Bool
deriving Repr, DecidableEq

/-- `BlePacketHeader` (ble_sniffer.rs lines 87-97). -/
structure BlePacketHeader where
  protocol_version : Nat
  crc_ok : Bool
  adv_header : Option BlePacketHeaderAdv
  data_header : Option BlePacketHeaderData
  phy : Nat
  channel_index : Nat
  rssi : Int
  event_counter : Nat
  delta_time_us : Nat
deriving Repr, DecidableEq

/-- `BleLLDataFlags` (ble_sniffer.rs lines 134-140). -/
structure BleLLDataFlags where
  simultaneous_host : Bool
  simultaneous_controller : Bool
  br_edr_support : Bool
  le_general_discoverale : Bool
  le_limited_discoverable : Bool
deriving Repr, DecidableEq

/-- `BleLLCompleteLocalName` (ble_sniffer.rs lines 142-144). -/
structure BleLLCompleteLocalName where
  device_name : String
deriving Repr, DecidableEq

/-- `BleLLTxPowerLevel` (ble_sniffer.rs lines 146-148). -/
structure BleLLTxPowerLevel where
  tx_power_level : Nat
deriving Repr, DecidableEq

/-- `BleLLManufacturerSpecificData` (ble_sniffer.rs lines 150-153). -/
structure BleLLManufacturerSpecificData where
  company_id : Nat
  data : List Nat
deriving Repr, DecidableEq

/-- `BleLLNonConnIndMsg` (ble_sniffer.rs lines 120-127); the 6-byte MAC
array is a 6-element list. -/
structure BleLLNonConnIndMsg where
  advertising_mac : List Nat
  advertising_types : List Nat
  flags : Option BleLLDataFlags
  complete_local_name : Option BleLLCompleteLocalName
  tx_power_level : Option BleLLTxPowerLevel
  manufacturer_data : Option BleLLManufacturerSpecificData
deriving Repr, DecidableEq

/-- `BleLLScanReqMsg` (ble_sniffer.rs lines 129-132). -/
structure BleLLScanReqMsg where
  scanning_mac : List Nat
  advertising_mac : List Nat
deriving Repr, DecidableEq

/-- `BleLinkLayer` (ble_sniffer.rs lines 110-118). -/
structure BleLinkLayer where
  access_address : Nat
  pdu_type : Nat
  channel_select : Nat
  tx_address_public : Bool
  rx_address_public : Bool
  non_conn_ind : Option BleLLNonConnIndMsg
  scan_req : Option BleLLScanReqMsg
deriving Repr, DecidableEq

/-- `BlePacket` (ble_sniffer.rs lines 78-85). -/
structure BlePacket where
  valid : Bool
  protocol_version : Nat
  packet_counter : Nat
  packet_id : Nat
  packet_header : BlePacketHeader
  ll_layer_data : BleLinkLayer
deriving Repr, DecidableEq

/-- `BlePacketHeader::new` (ble_sniffer.rs lines 343-357). -/
def BlePacketHeader.new : BlePacketHeader :=
  ⟨0, false, none, none, 0, 0, 0, 0, 0⟩

/-- `BleLinkLayer::new` (ble_sniffer.rs lines 359-371). -/
def BleLinkLayer.new : BleLinkLayer :=
  ⟨0, 0, 0, false, false, none, none⟩

/-- `BleLLNonConnIndMsg::new` (ble_sniffer.rs lines 373-384). -/
def BleLLNonConnIndMsg.new : BleLLNonConnIndMsg :=
  ⟨[0, 0, 0, 0, 0, 0], [], none, none, none, none⟩

/-- `BleLLScanReqMsg::new` (ble_sniffer.rs lines 386-393). -/
def BleLLScanReqMsg.new : BleLLScanReqMsg :=
  ⟨[0, 0, 0, 0, 0, 0], [0, 0, 0, 0, 0, 0]⟩

/-- `BlePacket::new` (ble_sniffer.rs lines 156-165). -/
def BlePacket.new : BlePacket :=
  ⟨false, 0, 0, 0, BlePacketHeader.new, BleLinkLayer.new⟩

/-- The local mutable variables of `BlePacket::from`
(ble_sniffer.rs lines 167-178) gathered into one loop state. -/
structure FromState where
  ll_payload_len : Nat
  ll_payload_index : Nat
  ll_payload_read_status : Nat
  ll_payload_info_len : Nat
  ll_payload_info_index : Nat
  ll_payload_info_type : Nat
  result : BlePacket
  cache_bytes : List Nat
  byte_index : Nat
  non_conn_ind_msg : BleLLNonConnIndMsg
  scan_req_msg : BleLLScanReqMsg
  aborted : Bool
deriving Repr, DecidableEq

/-- The initial loop state of `BlePacket::from`. -/
def FromState.init : FromState :=
  ⟨0, 0, 0, 0, 0, 0, BlePacket.new, [], 0, BleLLNonConnIndMsg.new, BleLLScanReqMsg.new, false⟩

/-- The `BleLLDataFlags` built from one flags byte
(ble_sniffer.rs lines 274-280). -/
def BleLLDataFlags.fromByte (b : Nat) : BleLLDataFlags :=
  ⟨(b >>> 4) &&& 1 == 1,
   (b >>> 3) &&& 1 == 1,
   (b >>> 2) &&& 1 == 1,
   (b >>> 1) &&& 1 == 1,
   b &&& 1 == 1⟩

def listToByteArray (l : List Nat) : ByteArray :=
  ⟨⟨l.map (fun n => UInt8.ofNat n)⟩⟩

/-- The Complete Local Name update (ble_sniffer.rs lines 285-293): decode
the cached value bytes as text; on failure the message is unchanged. -/
def nameUpdate (msg : BleLLNonConnIndMsg) (cache : List Nat) : BleLLNonConnIndMsg :=
  match String.fromUTF8? (listToByteArray cache) with
  | some name => { msg with complete_local_name := some ⟨name⟩ }
  | none => msg

/-- The Manufacturer Specific Data built from the cached value bytes
(ble_sniffer.rs lines 300-317): first two bytes little-endian company id,
rest opaque data. -/
def manufacturerFromCache (cache : List Nat) : BleLLManufacturerSpecificData :=
  let r := cache.foldl
    (fun (acc : Nat × Nat × List Nat) b1 =>
      if acc.1 = 0 then (acc.1 + 1, acc.2.1 ||| b1, acc.2.2)
      else if acc.1 = 1 then (acc.1 + 1, acc.2.1 ||| (b1 <<< 8), acc.2.2)
      else (acc.1 + 1, acc.2.1, acc.2.2 ++ [b1]))
    (0, 0, [])
  ⟨r.2.1, r.2.2⟩

/-- The packet-metadata byte (cursor 7) of `BlePacket::from`
(ble_sniffer.rs lines 193-209): CRC flag, PHY, and the packet-id-selected
sub-record. -/
def metaStep (s : FromState) (b : Nat) : FromState :=
  let hdr0 := { s.result.packet_header with
                crc_ok := b &&& 1 == 1,
                phy := (b &&& 0b1110000) >>> 4 }
  let dh : Option BlePacketHeaderData :=
    some ⟨(b &&& 0b10) >>> 1 == 1, (b &&& 0b100) >>> 2 == 1, (b &&& 0b1000) >>> 3 == 1⟩
  let ah : Option BlePacketHeaderAdv :=
    some ⟨(b &&& 0b110) >>> 1, (b &&& 0b1000) >>> 3 == 1⟩
  let hdr :=
    if s.result.packet_id = EVENT_PACKET_DATA_PDU then { hdr0 with data_header := dh }
    else if s.result.packet_id = EVENT_PACKET_ADV_PDU then { hdr0 with adv_header := ah }
    else hdr0
  { s with result := { s.result with packet_header := hdr } }

/-- The first-MAC region (cursor 22-27) of `BlePacket::from`
(ble_sniffer.rs lines 250-256): reverse-copy the byte into the
PDU-type-selected MAC and count it against the payload budget. -/
def macStep (s : FromState) (b : Nat) : FromState :=
  let amac := s.non_conn_ind_msg.advertising_mac.set (27 - s.byte_index) b
  let smac := s.scan_req_msg.scanning_mac.set (27 - s.byte_index) b
  let s1 :=
    if s.result.ll_layer_data.pdu_type = ADV_TYPE_ADV_NONCONN_IND then
      { s with non_conn_ind_msg := { s.non_conn_ind_msg with advertising_mac := amac } }
    else if s.result.ll_layer_data.pdu_type = ADV_TYPE_SCAN_REQ then
      { s with scan_req_msg := { s.scan_req_msg with scanning_mac := smac } }
    else s
  { s1 with ll_payload_index := s1.ll_payload_index + 1 }

/-- One TLV-reader step (cursor past 27, `ll_payload_read_status`
dispatch) of `BlePacket::from` (ble_sniffer.rs lines 259-324). -/
def tlvStep (s : FromState) (b : Nat) : FromState :=
  if s.ll_payload_read_status = 0 then
    { s with ll_payload_info_len := b,
             ll_payload_info_index := 0,
             ll_payload_info_type := 0,
             ll_payload_read_status := 1,
             cache_bytes := [] }
  else if s.ll_payload_read_status = 1 then
    let types := s.non_conn_ind_msg.advertising_types ++ [b]
    { s with ll_payload_info_type := b,
             non_conn_ind_msg := { s.non_conn_ind_msg with advertising_types := types },
             ll_payload_read_status := 2,
             ll_payload_info_index := s.ll_payload_info_index + 1 }
  else if s.ll_payload_read_status = 2 then
    let ii := s.ll_payload_info_index + 1
    let cache := s.cache_bytes ++ [b]
    let mfr := some (manufacturerFromCache cache)
    let mc :=
      if s.ll_payload_info_type = 0x01 then
        ({ s.non_conn_ind_msg with flags := some (BleLLDataFlags.fromByte b) },
         s.cache_bytes)
      else if s.ll_payload_info_type = 0x09 then
        (if ii = s.ll_payload_info_len then nameUpdate s.non_conn_ind_msg cache
         else s.non_conn_ind_msg, cache)
      else if s.ll_payload_info_type = 0x0a then
        ({ s.non_conn_ind_msg with tx_power_level := some ⟨b⟩ }, s.cache_bytes)
      else if s.ll_payload_info_type = 0xff then
        (if ii = s.ll_payload_info_len then
           { s.non_conn_ind_msg with manufacturer_data := mfr }
         else s.non_conn_ind_msg, cache)
      else (s.non_conn_ind_msg, s.cache_bytes)
    let newStatus := if ii = s.ll_payload_info_len then 0 else s.ll_payload_read_status
    { s with ll_payload_info_index := ii,
             non_conn_ind_msg := mc.1,
             cache_bytes := mc.2,
             ll_payload_read_status := newStatus }
  else s

/-- The link-layer payload region (the final `else`, cursor past 27) of
`BlePacket::from` (ble_sniffer.rs lines 257-330): while the payload
budget lasts, run the TLV reader for NonConnectableAdvertisement PDUs or
reverse-copy the advertiser MAC for ScanRequest PDUs. -/
def payloadStep (s : FromState) (b : Nat) : FromState :=
  if s.ll_payload_index < s.ll_payload_len then
    let aamac := s.scan_req_msg.advertising_mac.set (33 - s.byte_index) b
    let s1 :=
      if s.result.ll_layer_data.pdu_type = ADV_TYPE_ADV_NONCONN_IND then tlvStep s b
      else if s.result.ll_layer_data.pdu_type = ADV_TYPE_SCAN_REQ then
        { s with scan_req_msg := { s.scan_req_msg with advertising_mac := aamac } }
      else s
    { s1 with ll_payload_index := s1.ll_payload_index + 1 }
  else s

/-- The body of the `for b in bytes` loop of `BlePacket::from`
(ble_sniffer.rs lines 183-330): the cursor-indexed if-chain, without the
final `byte_index += 1`. -/
def fromStepCore (s : FromState) (b : Nat) : FromState :=
  if s.byte_index = 0 ∧ b ≠ HEADER_LENGTH then
    { s with aborted := true }
  else if s.byte_index = 2 then
    { s with result := { s.result with protocol_version := b } }
  else if s.byte_index = 3 then
    { s with result := { s.result with packet_counter := s.result.packet_counter ||| b } }
  else if s.byte_index = 4 then
    { s with result := { s.result with packet_counter := s.result.packet_counter ||| (b <<< 8) } }
  else if s.byte_index = 5 then
    { s with result := { s.result with packet_id := b } }
  else if s.byte_index = 7 then
    metaStep s b
  else if s.byte_index = 8 then
    { s with result := { s.result with packet_header :=
        { s.result.packet_header with channel_index := b } } }
  else if s.byte_index = 9 then
    { s with result := { s.result with packet_header :=
        { s.result.packet_header with rssi := 0 - (b : Int) } } }
  else if s.byte_index = 10 then
    { s with result := { s.result with packet_header :=
        { s.result.packet_header with event_counter :=
            s.result.packet_header.event_counter ||| b } } }
  else if s.byte_index = 11 then
    { s with result := { s.result with packet_header :=
        { s.result.packet_header with event_counter :=
            s.result.packet_header.event_counter ||| (b <<< 8) } } }
  else if s.byte_index = 12 then
    { s with result := { s.result with packet_header :=
        { s.result.packet_header with delta_time_us :=
            s.result.packet_header.delta_time_us ||| b } } }
  else if s.byte_index = 13 then
    { s with result := { s.result with packet_header :=
        { s.result.packet_header with delta_time_us :=
            s.result.packet_header.delta_time_us ||| (b <<< 8) } } }
  else if s.byte_index = 14 then
    { s with result := { s.result with packet_header :=
        { s.result.packet_header with delta_time_us :=
            s.result.packet_header.delta_time_us ||| (b <<< 16) } } }
  else if s.byte_index = 15 then
    { s with result := { s.result with packet_header :=
        { s.result.packet_header with delta_time_us :=
            s.result.packet_header.delta_time_us ||| (b <<< 24) } } }
  else if s.byte_index = 16 then
    { s with result := { s.result with ll_layer_data :=
        { s.result.ll_layer_data with access_address :=
            s.result.ll_layer_data.access_address ||| b } } }
  else if s.byte_index = 17 then
    { s with result := { s.result with ll_layer_data :=
        { s.result.ll_layer_data with access_address :=
            s.result.ll_layer_data.access_address ||| (b <<< 8) } } }
  else if s.byte_index = 18 then
    { s with result := { s.result with ll_layer_data :=
        { s.result.ll_layer_data with access_address :=
            s.result.ll_layer_data.access_address ||| (b <<< 16) } } }
  else if s.byte_index = 19 then
    { s with result := { s.result with ll_layer_data :=
        { s.result.ll_layer_data with access_address :=
            s.result.ll_layer_data.access_address ||| (b <<< 24) } } }
  else if s.byte_index = 20 then
    { s with result := { s.result with ll_layer_data :=
        { s.result.ll_layer_data with
            pdu_type := b &&& 0b1111,
            channel_select := (b &&& 0x20) >>> 5,
            tx_address_public := (b &&& 0x40) >>> 6 == 0,
            rx_address_public := (b &&& 0x80) >>> 7 == 0 } } }
  else if s.byte_index = 21 then
    -- the extra padding byte of the raw uart format (lines 240-249)
    if s.ll_payload_len = 0 then
      { s with ll_payload_len := b, byte_index := s.byte_index - 1 }
    else if s.result.ll_layer_data.pdu_type = ADV_TYPE_SCAN_REQ ∧ s.ll_payload_len ≠ 12 then
      { s with aborted := true }
    else s
  else if 22 ≤ s.byte_index ∧ s.byte_index ≤ 27 then
    macStep s b
  else
    payloadStep s b

/-- One iteration of the `for b in bytes` loop of `BlePacket::from`
(ble_sniffer.rs lines 179-332).  The source's early `return result`
statements become the absorbing `aborted` flag; `byte_index += 1`
(line 331) is the final increment, skipped exactly when the source would
have returned. -/
def fromStep (s : FromState) (b : Nat) : FromState :=
  if s.aborted then s
  else
    let s' := fromStepCore s b
    if s'.aborted then s' else { s' with byte_index := s'.byte_index + 1 }

/-- `BlePacket::from` (ble_sniffer.rs lines 167-340): run the loop over
all bytes; on an early return the partially filled result (with
`valid = false`) is produced, otherwise the PDU-specific message is
attached (lines 333-337) and `valid` is set (line 338). -/
def BlePacket.fromBytes (bytes : List Nat) : BlePacket :=
  let s := bytes.foldl fromStep FromState.init
  if s.aborted then s.result
  else
    let r :=
      if s.result.ll_layer_data.pdu_type = ADV_TYPE_ADV_NONCONN_IND then
        { s.result with ll_layer_data :=
            { s.result.ll_layer_data with non_conn_ind := some s.non_conn_ind_msg } }
      else if s.result.ll_layer_data.pdu_type = ADV_TYPE_SCAN_REQ then
        { s.result with ll_layer_data :=
            { s.result.ll_layer_data with scan_req := some s.scan_req_msg } }
      else s.result
    { r with valid := true }

/-- A simp helper: the Complete Local Name update never changes the
recorded type-code sequence. -/
theorem nameUpdate_advertising_types (msg : BleLLNonConnIndMsg) (cache : List Nat) :
    (nameUpdate msg cache).advertising_types = msg.advertising_types := by
  unfold nameUpdate
  split <;> rfl



@[simp] theorem metaStep_aborted (s : FromState) (b : Nat) :
    (metaStep s b).aborted = s.aborted := rfl

@[simp] theorem metaStep_byte_index (s : FromState) (b : Nat) :
    (metaStep s b).byte_index = s.byte_index := rfl

@[simp] theorem metaStep_len (s : FromState) (b : Nat) :
    (metaStep s b).ll_payload_len = s.ll_payload_len := rfl

@[simp] theorem metaStep_index (s : FromState) (b : Nat) :
    (metaStep s b).ll_payload_index = s.ll_payload_index := rfl

@[simp] theorem metaStep_status (s : FromState) (b : Nat) :
    (metaStep s b).ll_payload_read_status = s.ll_payload_read_status := rfl

@[simp] theorem metaStep_pdu (s : FromState) (b : Nat) :
    (metaStep s b).result.ll_layer_data = s.result.ll_layer_data := rfl

@[simp] theorem metaStep_valid (s : FromState) (b : Nat) :
    (metaStep s b).result.valid = s.result.valid := rfl

@[simp] theorem metaStep_types (s : FromState) (b : Nat) :
    (metaStep s b).non_conn_ind_msg = s.non_conn_ind_msg := rfl

@[simp] theorem macStep_aborted (s : FromState) (b : Nat) :
    (macStep s b).aborted = s.aborted := by
  unfold macStep; split_ifs <;> rfl

@[simp] theorem macStep_byte_index (s : FromState) (b : Nat) :
    (macStep s b).byte_index = s.byte_index := by
  unfold macStep; split_ifs <;> rfl

@[simp] theorem macStep_len (s : FromState) (b : Nat) :
    (macStep s b).ll_payload_len = s.ll_payload_len := by
  unfold macStep; split_ifs <;> rfl

@[simp] theorem macStep_index (s : FromState) (b : Nat) :
    (macStep s b).ll_payload_index = s.ll_payload_index + 1 := by
  unfold macStep; split_ifs <;> rfl

@[simp] theorem macStep_status (s : FromState) (b : Nat) :
    (macStep s b).ll_payload_read_status = s.ll_payload_read_status := by
  unfold macStep; split_ifs <;> rfl

@[simp] theorem macStep_result (s : FromState) (b : Nat) :
    (macStep s b).result = s.result := by
  unfold macStep; split_ifs <;> rfl

@[simp] theorem macStep_types (s : FromState) (b : Nat) :
    (macStep s b).non_conn_ind_msg.advertising_types =
      s.non_conn_ind_msg.advertising_types := by
  unfold macStep; split_ifs <;> rfl

@[simp] theorem tlvStep_aborted (s : FromState) (b : Nat) :
    (tlvStep s b).aborted = s.aborted := by
  unfold tlvStep; split_ifs <;> rfl

@[simp] theorem tlvStep_byte_index (s : FromState) (b : Nat) :
    (tlvStep s b).byte_index = s.byte_index := by
  unfold tlvStep; split_ifs <;> rfl

@[simp] theorem tlvStep_len (s : FromState) (b : Nat) :
    (tlvStep s b).ll_payload_len = s.ll_payload_len := by
  unfold tlvStep; split_ifs <;> rfl

@[simp] theorem tlvStep_index (s : FromState) (b : Nat) :
    (tlvStep s b).ll_payload_index = s.ll_payload_index := by
  unfold tlvStep; split_ifs <;> rfl

@[simp] theorem tlvStep_result (s : FromState) (b : Nat) :
    (tlvStep s b).result = s.result := by
  unfold tlvStep; split_ifs <;> rfl

@[simp] theorem tlvStep_scan_req_msg (s : FromState) (b : Nat) :
    (tlvStep s b).scan_req_msg = s.scan_req_msg := by
  unfold tlvStep; split_ifs <;> rfl

@[simp] theorem payloadStep_aborted (s : FromState) (b : Nat) :
    (payloadStep s b).aborted = s.aborted := by
  unfold payloadStep; split_ifs <;> simp

@[simp] theorem payloadStep_byte_index (s : FromState) (b : Nat) :
    (payloadStep s b).byte_index = s.byte_index := by
  unfold payloadStep; split_ifs <;> simp

@[simp] theorem payloadStep_len (s : FromState) (b : Nat) :
    (payloadStep s b).ll_payload_len = s.ll_payload_len := by
  unfold payloadStep; split_ifs <;> simp

@[simp] theorem payloadStep_result (s : FromState) (b : Nat) :
    (payloadStep s b).result = s.result := by
  unfold payloadStep; split_ifs <;> simp


/-- After an early return (`aborted`), the remaining loop iterations do
nothing. -/
theorem fromStep_absorb (s : FromState) (b : Nat) (h : s.aborted = true) :
    fromStep s b = s := by
  unfold fromStep
  rw [if_pos h]

theorem foldl_fromStep_absorb (l : List Nat) (s : FromState) (h : s.aborted = true) :
    l.foldl fromStep s = s := by
  induction l with
  | nil => rfl
  | cons b rest ih => rw [List.foldl_cons, fromStep_absorb s b h, ih]

/-- The first byte: 6 moves the cursor on, anything else aborts (the
header-length check, ble_sniffer.rs lines 183-184). -/
theorem fromStep_first (b : Nat) :
    fromStep FromState.init b =
      (if b = HEADER_LENGTH then
        ⟨0, 0, 0, 0, 0, 0, BlePacket.new, [], 1, BleLLNonConnIndMsg.new,
         BleLLScanReqMsg.new, false⟩
       else
        ⟨0, 0, 0, 0, 0, 0, BlePacket.new, [], 0, BleLLNonConnIndMsg.new,
         BleLLScanReqMsg.new, true⟩) := by
  by_cases hb : b = HEADER_LENGTH <;>
    simp [fromStep, fromStepCore, payloadStep, FromState.init, hb]

theorem fromStepCore_valid (s : FromState) (b : Nat) :
    (fromStepCore s b).result.valid = s.result.valid := by
  unfold fromStepCore
  by_cases h0 : s.byte_index = 0 ∧ b ≠ HEADER_LENGTH
  · rw [if_pos h0]
  · rw [if_neg h0]
    by_cases h2 : s.byte_index = 2
    · rw [if_pos h2]
    · rw [if_neg h2]
      by_cases h3 : s.byte_index = 3
      · rw [if_pos h3]
      · rw [if_neg h3]
        by_cases h4 : s.byte_index = 4
        · rw [if_pos h4]
        · rw [if_neg h4]
          by_cases h5 : s.byte_index = 5
          · rw [if_pos h5]
          · rw [if_neg h5]
            by_cases h7 : s.byte_index = 7
            · rw [if_pos h7]
              exact metaStep_valid s b
            · rw [if_neg h7]
              by_cases h8 : s.byte_index = 8
              · rw [if_pos h8]
              · rw [if_neg h8]
                by_cases h9 : s.byte_index = 9
                · rw [if_pos h9]
                · rw [if_neg h9]
                  by_cases h10 : s.byte_index = 10
                  · rw [if_pos h10]
                  · rw [if_neg h10]
                    by_cases h11 : s.byte_index = 11
                    · rw [if_pos h11]
                    · rw [if_neg h11]
                      by_cases h12 : s.byte_index = 12
                      · rw [if_pos h12]
                      · rw [if_neg h12]
                        by_cases h13 : s.byte_index = 13
                        · rw [if_pos h13]
                        · rw [if_neg h13]
                          by_cases h14 : s.byte_index = 14
                          · rw [if_pos h14]
                          · rw [if_neg h14]
                            by_cases h15 : s.byte_index = 15
                            · rw [if_pos h15]
                            · rw [if_neg h15]
                              by_cases h16 : s.byte_index = 16
                              · rw [if_pos h16]
                              · rw [if_neg h16]
                                by_cases h17 : s.byte_index = 17
                                · rw [if_pos h17]
                                · rw [if_neg h17]
                                  by_cases h18 : s.byte_index = 18
                                  · rw [if_pos h18]
                                  · rw [if_neg h18]
                                    by_cases h19 : s.byte_index = 19
                                    · rw [if_pos h19]
                                    · rw [if_neg h19]
                                      by_cases h20 : s.byte_index = 20
                                      · rw [if_pos h20]
                                      · rw [if_neg h20]
                                        by_cases h21 : s.byte_index = 21
                                        · rw [if_pos h21]
                                          by_cases h21a : s.ll_payload_len = 0
                                          · rw [if_pos h21a]
                                          · rw [if_neg h21a]
                                            by_cases h21b : s.result.ll_layer_data.pdu_type = ADV_TYPE_SCAN_REQ ∧ s.ll_payload_len ≠ 12
                                            · rw [if_pos h21b]
                                            · rw [if_neg h21b]
                                        · rw [if_neg h21]
                                          by_cases h22 : 22 ≤ s.byte_index ∧ s.byte_index ≤ 27
                                          · rw [if_pos h22]
                                            rw [macStep_result]
                                          · rw [if_neg h22]
                                            rw [payloadStep_result]

/-- Two lifting lemmas from the loop body to the loop iteration: when the
body does not abort the cursor advances, otherwise the body's state is
final. -/
theorem fromStep_eq_core (s : FromState) (b : Nat) (hab : s.aborted = false)
    (hcab : (fromStepCore s b).aborted = false) :
    fromStep s b =
      { fromStepCore s b with byte_index := (fromStepCore s b).byte_index + 1 } := by
  unfold fromStep
  rw [if_neg (by simp [hab])]
  dsimp only
  rw [if_neg (by simp [hcab])]

theorem fromStep_eq_core_abort (s : FromState) (b : Nat) (hab : s.aborted = false)
    (hcab : (fromStepCore s b).aborted = true) :
    fromStep s b = fromStepCore s b := by
  unfold fromStep
  rw [if_neg (by simp [hab])]
  dsimp only
  rw [if_pos hcab]

/-- No step of the loop ever touches `result.valid`. -/
theorem fromStep_valid (s : FromState) (b : Nat) :
    (fromStep s b).result.valid = s.result.valid := by
  by_cases hab : s.aborted = true
  · rw [fromStep_absorb s b hab]
  · by_cases hcab : (fromStepCore s b).aborted = true
    · rw [fromStep_eq_core_abort s b (by simpa using hab) hcab]
      exact fromStepCore_valid s b
    · rw [fromStep_eq_core s b (by simpa using hab) (by simpa using hcab)]
      exact fromStepCore_valid s b

theorem foldl_fromStep_valid (l : List Nat) :
    ∀ s : FromState, (l.foldl fromStep s).result.valid = s.result.valid := by
  induction l with
  | nil => intro s; rfl
  | cons b rest ih =>
    intro s
    rw [List.foldl_cons, ih, fromStep_valid]

/-- The loop body in the header region (cursor 1..20, payload length
still unset): no abort, no cursor change within the body, the payload
length stays unset, and the PDU type is set exactly at cursor 20. -/
theorem fromStepCore_header (s : FromState) (b : Nat)
    (h1 : 1 ≤ s.byte_index) (h2 : s.byte_index ≤ 20) (hlen : s.ll_payload_len = 0) :
    (fromStepCore s b).aborted = s.aborted ∧
    (fromStepCore s b).byte_index = s.byte_index ∧
    (fromStepCore s b).ll_payload_len = 0 ∧
    (fromStepCore s b).result.ll_layer_data.pdu_type =
      (if s.byte_index = 20 then b &&& 0b1111 else s.result.ll_layer_data.pdu_type) := by
  have h0 : ¬(s.byte_index = 0 ∧ b ≠ HEADER_LENGTH) := by
    rintro ⟨h, -⟩; omega
  have h21c : ¬(s.byte_index = 21) := by omega
  have h2227 : ¬(22 ≤ s.byte_index ∧ s.byte_index ≤ 27) := by omega
  unfold fromStepCore
  rw [if_neg h0]
  by_cases h2 : s.byte_index = 2
  · rw [if_pos h2]
    simp_all
  · rw [if_neg h2]
    by_cases h3 : s.byte_index = 3
    · rw [if_pos h3]
      simp_all
    · rw [if_neg h3]
      by_cases h4 : s.byte_index = 4
      · rw [if_pos h4]
        simp_all
      · rw [if_neg h4]
        by_cases h5 : s.byte_index = 5
        · rw [if_pos h5]
          simp_all
        · rw [if_neg h5]
          by_cases h7 : s.byte_index = 7
          · rw [if_pos h7]
            simp_all
          · rw [if_neg h7]
            by_cases h8 : s.byte_index = 8
            · rw [if_pos h8]
              simp_all
            · rw [if_neg h8]
              by_cases h9 : s.byte_index = 9
              · rw [if_pos h9]
                simp_all
              · rw [if_neg h9]
                by_cases h10 : s.byte_index = 10
                · rw [if_pos h10]
                  simp_all
                · rw [if_neg h10]
                  by_cases h11 : s.byte_index = 11
                  · rw [if_pos h11]
                    simp_all
                  · rw [if_neg h11]
                    by_cases h12 : s.byte_index = 12
                    · rw [if_pos h12]
                      simp_all
                    · rw [if_neg h12]
                      by_cases h13 : s.byte_index = 13
                      · rw [if_pos h13]
                        simp_all
                      · rw [if_neg h13]
                        by_cases h14 : s.byte_index = 14
                        · rw [if_pos h14]
                          simp_all
                        · rw [if_neg h14]
                          by_cases h15 : s.byte_index = 15
                          · rw [if_pos h15]
                            simp_all
                          · rw [if_neg h15]
                            by_cases h16 : s.byte_index = 16
                            · rw [if_pos h16]
                              simp_all
                            · rw [if_neg h16]
                              by_cases h17 : s.byte_index = 17
                              · rw [if_pos h17]
                                simp_all
                              · rw [if_neg h17]
                                by_cases h18 : s.byte_index = 18
                                · rw [if_pos h18]
                                  simp_all
                                · rw [if_neg h18]
                                  by_cases h19 : s.byte_index = 19
                                  · rw [if_pos h19]
                                    simp_all
                                  · rw [if_neg h19]
                                    by_cases h20 : s.byte_index = 20
                                    · rw [if_pos h20]
                                      simp_all
                                    · rw [if_neg h20]
                                      rw [if_neg h21c]
                                      rw [if_neg h2227]
                                      simp_all

/-- A header-region step (cursor 1..20, payload length still unset) never
aborts, advances the cursor, keeps the payload length unset, and sets the
PDU type exactly at cursor 20. -/
theorem fromStep_header (s : FromState) (b : Nat) (hab : s.aborted = false)
    (h1 : 1 ≤ s.byte_index) (h2 : s.byte_index ≤ 20) (hlen : s.ll_payload_len = 0) :
    (fromStep s b).aborted = false ∧
    (fromStep s b).byte_index = s.byte_index + 1 ∧
    (fromStep s b).ll_payload_len = 0 ∧
    (fromStep s b).result.ll_layer_data.pdu_type =
      (if s.byte_index = 20 then b &&& 0b1111 else s.result.ll_layer_data.pdu_type) := by
  obtain ⟨hc1, hc2, hc3, hc4⟩ := fromStepCore_header s b h1 h2 hlen
  rw [fromStep_eq_core s b hab (by rw [hc1]; exact hab)]
  refine ⟨by simpa using hc1.trans hab, by simp [hc2], by simpa using hc3, by simpa using hc4⟩

/-- The loop body past the MAC region (cursor at least 22): no abort and
no cursor change within the body. -/
theorem fromStepCore_big (s : FromState) (b : Nat) (h : 22 ≤ s.byte_index) :
    (fromStepCore s b).aborted = s.aborted ∧
    (fromStepCore s b).byte_index = s.byte_index := by
  have h0 : ¬(s.byte_index = 0 ∧ b ≠ HEADER_LENGTH) := by
    rintro ⟨h', -⟩; omega
  unfold fromStepCore
  rw [if_neg h0]
  rw [if_neg (by omega : ¬(s.byte_index = 2))]
  rw [if_neg (by omega : ¬(s.byte_index = 3))]
  rw [if_neg (by omega : ¬(s.byte_index = 4))]
  rw [if_neg (by omega : ¬(s.byte_index = 5))]
  rw [if_neg (by omega : ¬(s.byte_index = 7))]
  rw [if_neg (by omega : ¬(s.byte_index = 8))]
  rw [if_neg (by omega : ¬(s.byte_index = 9))]
  rw [if_neg (by omega : ¬(s.byte_index = 10))]
  rw [if_neg (by omega : ¬(s.byte_index = 11))]
  rw [if_neg (by omega : ¬(s.byte_index = 12))]
  rw [if_neg (by omega : ¬(s.byte_index = 13))]
  rw [if_neg (by omega : ¬(s.byte_index = 14))]
  rw [if_neg (by omega : ¬(s.byte_index = 15))]
  rw [if_neg (by omega : ¬(s.byte_index = 16))]
  rw [if_neg (by omega : ¬(s.byte_index = 17))]
  rw [if_neg (by omega : ¬(s.byte_index = 18))]
  rw [if_neg (by omega : ¬(s.byte_index = 19))]
  rw [if_neg (by omega : ¬(s.byte_index = 20))]
  rw [if_neg (by omega : ¬(s.byte_index = 21))]
  by_cases h22 : 22 ≤ s.byte_index ∧ s.byte_index ≤ 27
  · rw [if_pos h22]
    simp
  · rw [if_neg h22]
    simp

/-- Past the MAC region (cursor at least 22) no abort can happen any more
and the cursor simply advances. -/
theorem fromStep_big (s : FromState) (b : Nat) (hab : s.aborted = false)
    (h : 22 ≤ s.byte_index) :
    (fromStep s b).aborted = false ∧ (fromStep s b).byte_index = s.byte_index + 1 := by
  obtain ⟨hc1, hc2⟩ := fromStepCore_big s b h
  rw [fromStep_eq_core s b hab (by rw [hc1]; exact hab)]
  exact ⟨by simpa using hc1.trans hab, by simp [hc2]⟩

theorem foldl_fromStep_big (l : List Nat) :
    ∀ s : FromState, s.aborted = false → 22 ≤ s.byte_index →
    (l.foldl fromStep s).aborted = false := by
  induction l with
  | nil => intro s hab _; exact hab
  | cons b rest ih =>
    intro s hab h
    obtain ⟨hab', hbi'⟩ := fromStep_big s b hab h
    rw [List.foldl_cons]
    exact ih _ hab' (by omega)

/-- The first visit of cursor position 21 with the payload length unset:
record the byte as the payload length and stay at position 21
(ble_sniffer.rs lines 242-245 — `byte_index -= 1` then the loop's
`byte_index += 1`). -/
theorem fromStep_21_len0 (s : FromState) (b : Nat) (hab : s.aborted = false)
    (hbi : s.byte_index = 21) (hlen : s.ll_payload_len = 0) :
    fromStep s b = { s with ll_payload_len := b, byte_index := 21 } := by
  obtain ⟨len, idx, status, ilen, iidx, itype, res, cache, bi, msg, smsg, ab⟩ := s
  simp only at hab hbi hlen
  subst hab hbi hlen
  simp [fromStep, fromStepCore]

/-- A later visit of cursor position 21 (payload length already set): the
ScanRequest length check fires, otherwise the byte is skipped
(ble_sniffer.rs lines 246-248). -/
theorem fromStep_21_check (s : FromState) (b : Nat) (hab : s.aborted = false)
    (hbi : s.byte_index = 21) (hlen : s.ll_payload_len ≠ 0) :
    fromStep s b =
      (if s.result.ll_layer_data.pdu_type = ADV_TYPE_SCAN_REQ ∧ s.ll_payload_len ≠ 12 then
        { s with aborted := true }
       else { s with byte_index := 22 }) := by
  obtain ⟨len, idx, status, ilen, iidx, itype, res, cache, bi, msg, smsg, ab⟩ := s
  simp only at hab hbi hlen
  subst hab hbi
  by_cases hc : res.ll_layer_data.pdu_type = ADV_TYPE_SCAN_REQ ∧ len ≠ 12 <;>
    simp [fromStep, fromStepCore, hlen, hc]

/-- The abort condition of the payload-length position, as a predicate on
the remaining bytes: zero bytes are re-read (each leaves the length unset
and rewinds the cursor), the first nonzero byte becomes the declared
length, and the decode aborts exactly when the PDU type is ScanRequest,
that length differs from 12, and at least one further byte follows. -/
def cond21 (p : Nat) : List Nat → Bool
  | [] => false
  | b :: rest =>
    if b = 0 then cond21 p rest
    else decide (p = ADV_TYPE_SCAN_REQ) && decide (b ≠ 12) && !rest.isEmpty

/-- The abort condition seen from a header cursor position `bi` (1..20):
nothing before position 20 can abort; the byte at position 20 fixes the
PDU type (its low 4 bits) and the rest is `cond21`. -/
def condA : Nat → List Nat → Bool
  | _, [] => false
  | bi, b :: rest => if bi = 20 then cond21 (b &&& 0b1111) rest else condA (bi + 1) rest

/-- The complete abort condition of `BlePacket::from`: a nonempty input
whose first byte is not 6, or a ScanRequest whose declared payload length
(the first nonzero byte at or after position 21) differs from 12 and is
followed by at least one more byte. -/
def fromAbortSpec (bytes : List Nat) : Bool :=
  match bytes with
  | [] => false
  | b :: rest => if b = HEADER_LENGTH then condA 1 rest else true

theorem foldl_fromStep_21 (l : List Nat) :
    ∀ s : FromState, s.aborted = false → s.byte_index = 21 → s.ll_payload_len = 0 →
    (l.foldl fromStep s).aborted = cond21 s.result.ll_layer_data.pdu_type l := by
  induction l with
  | nil => intro s hab _ _; simpa [cond21] using hab
  | cons b rest ih =>
    intro s hab hbi hlen
    rw [List.foldl_cons, fromStep_21_len0 s b hab hbi hlen]
    by_cases hb : b = 0
    · subst hb
      rw [ih _ (by simp [hab]) (by simp) (by simp)]
      simp [cond21]
    · -- the length byte is b ≠ 0; the next byte (if any) runs the check
      cases rest with
      | nil =>
        simp [cond21, hb, hab]
      | cons c rest' =>
        rw [List.foldl_cons,
          fromStep_21_check _ c (by simp [hab]) (by simp) (by simpa using hb)]
        by_cases hc : s.result.ll_layer_data.pdu_type = ADV_TYPE_SCAN_REQ ∧ b ≠ 12
        · rw [if_pos (by simpa using hc)]
          rw [foldl_fromStep_absorb _ _ (by simp)]
          simp [cond21, hb, hc.1, hc.2]
        · rw [if_neg (by simpa using hc)]
          rw [foldl_fromStep_big _ _ (by simp [hab]) (by simp)]
          simp only [cond21, if_neg hb]
          rcases Decidable.not_and_iff_or_not.mp hc with h | h <;> simp [h]

theorem foldl_fromStep_header (l : List Nat) :
    ∀ (s : FromState), s.aborted = false → 1 ≤ s.byte_index → s.byte_index ≤ 20 →
    s.ll_payload_len = 0 →
    (l.foldl fromStep s).aborted = condA s.byte_index l := by
  induction l with
  | nil => intro s hab _ _ _; simpa [condA] using hab
  | cons b rest ih =>
    intro s hab h1 h2 hlen
    obtain ⟨hab', hbi', hlen', hpdu'⟩ := fromStep_header s b hab h1 h2 hlen
    rw [List.foldl_cons]
    by_cases h20 : s.byte_index = 20
    · rw [foldl_fromStep_21 rest _ hab' (by omega) hlen']
      rw [hpdu', if_pos h20]
      simp [condA, h20]
    · rw [ih _ hab' (by omega) (by omega) hlen']
      rw [hbi']
      simp [condA, h20]

/-- `BlePacket::from` marks the packet invalid exactly under
`fromAbortSpec`: the decoded `valid` flag is its negation. -/
theorem fromBytes_valid_eq (bytes : List Nat) :
    (BlePacket.fromBytes bytes).valid = !fromAbortSpec bytes := by
  cases bytes with
  | nil => rfl
  | cons b rest =>
    unfold BlePacket.fromBytes
    rw [List.foldl_cons, fromStep_first b]
    by_cases hb : b = HEADER_LENGTH
    · rw [if_pos hb]
      have hrun := foldl_fromStep_header rest
        ⟨0, 0, 0, 0, 0, 0, BlePacket.new, [], 1, BleLLNonConnIndMsg.new,
         BleLLScanReqMsg.new, false⟩ rfl (by simp) (by simp) rfl
      simp only at hrun
      cases hcond : condA 1 rest with
      | false =>
        rw [hcond] at hrun
        simp only [hrun, Bool.false_eq_true, if_false]
        simp [fromAbortSpec, hb, hcond]
      | true =>
        rw [hcond] at hrun
        simp only [hrun, if_true]
        rw [foldl_fromStep_valid]
        simp [fromAbortSpec, hb, hcond, BlePacket.new]
    · rw [if_neg hb]
      rw [foldl_fromStep_absorb _ _ (by simp)]
      simp [fromAbortSpec, hb, BlePacket.new]

/-- Claim C3 counterexample: a 22-byte frame whose PDU type is ScanRequest
and whose byte at the length position is 7 (≠ 12) still decodes with
`valid = true`, because the frame ends before the length check is reached;
contrary to the claim that every ScanRequest whose length-position byte
differs from 12 is invalid. -/
theorem claim_C3_counterexample :
    (BlePacket.fromBytes
        [6,0,0,0,0,0,0,0,0,0,0,0,0,0,0,0,0,0,0,0,3,7]).valid = true ∧
    (BlePacket.fromBytes
        [6,0,0,0,0,0,0,0,0,0,0,0,0,0,0,0,0,0,0,0,3,7]).ll_layer_data.pdu_type =
      ADV_TYPE_SCAN_REQ ∧
    ([6,0,0,0,0,0,0,0,0,0,0,0,0,0,0,0,0,0,0,0,3,7] : List Nat)[21]? = some 7 ∧
    (7 : Nat) ≠ 12 := by
  refine ⟨by decide, by decide, by decide, by decide⟩

/-- Claim C3 (amended): `BlePacket::from` returns `valid = false` in
exactly two cases — the input is nonempty and its first byte differs
from 6, or the first byte is 6, the low 4 bits of byte 20 are the
ScanRequest code, and the first nonzero byte at or after position 21
differs from 12 *and is followed by at least one more byte* (the check is
only run when the decoder consumes a byte after the length byte); every
other input, including the empty vector and any truncated frame, yields
`valid = true` with unreached fields left at their defaults
(`fromAbortSpec` is exactly this condition). -/
theorem claim_C3_amended (bytes : List Nat) :
    (BlePacket.fromBytes bytes).valid = false ↔ fromAbortSpec bytes = true := by
  rw [fromBytes_valid_eq]
  cases fromAbortSpec bytes <;> simp

theorem cond21_short (p : Nat) (l : List Nat) (h : l.length ≤ 1) :
    cond21 p l = false := by
  match l with
  | [] => rfl
  | [b] =>
    by_cases hb : b = 0 <;> simp [cond21, hb]

theorem condA_short (l : List Nat) :
    ∀ bi : Nat, l.length + bi ≤ 22 → condA bi l = false := by
  induction l with
  | nil => intro bi _; rfl
  | cons b rest ih =>
    intro bi h
    by_cases h20 : bi = 20
    · subst h20
      simp only [condA, if_pos rfl]
      exact cond21_short _ _ (by simpa using h)
    · simp only [condA, if_neg h20]
      refine ih (bi + 1) ?_
      simp only [List.length_cons] at h
      omega

/-- Claim C1 counterexample: the one-byte frame `[6]` is truncated far
short of every header field, yet `BlePacket::from` returns
`valid = true`. -/
theorem claim_C1_counterexample :
    (BlePacket.fromBytes [6]).valid = true ∧ ([6] : List Nat).length < 16 := by
  refine ⟨by decide, by decide⟩

/-- Claim C1 (amended): `valid` is set true exactly when the whole byte
sequence is consumed without an abort from the two structural checks
(first byte ≠ 6, ScanRequest length ≠ 12), but truncated frames still
validate: no length requirement exists, so any frame starting with 6 that
is too short to reach the ScanRequest length check (at most 22 bytes)
decodes with `valid = true`, its unreached fields left at defaults. -/
theorem claim_C1_amended :
    (∀ bytes : List Nat,
      (BlePacket.fromBytes bytes).valid = true ↔ fromAbortSpec bytes = false) ∧
    (∀ bytes : List Nat, bytes.head? = some HEADER_LENGTH → bytes.length ≤ 22 →
      (BlePacket.fromBytes bytes).valid = true) := by
  constructor
  · intro bytes
    rw [fromBytes_valid_eq]
    cases fromAbortSpec bytes <;> simp
  · intro bytes hhead hlenb
    rw [fromBytes_valid_eq]
    match bytes, hhead with
    | b :: rest, hhead =>
      have hb : b = HEADER_LENGTH := by simpa using hhead
      have : condA 1 rest = false := by
        refine condA_short rest 1 ?_
        simp at hlenb
        omega
      simp [fromAbortSpec, hb, this]

/-- Claim C1 witness: the amended theorem applied to the truncated
two-byte frame `[6, 0]`. -/
theorem claim_C1_witness : (BlePacket.fromBytes [6, 0]).valid = true :=
  claim_C1_amended.2 [6, 0] (by decide) (by decide)

/-- The fixed 21-byte frame prefix (bytes 0-20) of a well-formed
NonConnectableAdvertisement frame: header-length byte 6, zero header
fields, PDU-header byte 2 at position 20. -/
def nonconnPrefix : List Nat := [6,0,0,0,0,0,0,0,0,0,0,0,0,0,0,0,0,0,0,0,2]

/-- The same prefix with PDU-header byte 3 (ScanRequest) at position 20. -/
def scanPrefix : List Nat := [6,0,0,0,0,0,0,0,0,0,0,0,0,0,0,0,0,0,0,0,3]

/-- The partial decode result after the 21-byte prefix (all-zero header
fields, PDU type `p`). -/
def prefixResult (p : Nat) : BlePacket :=
  ⟨false, 0, 0, 0, ⟨0, false, none, none, 0, 0, 0, 0, 0⟩,
   ⟨0, p, 0, true, true, none, none⟩⟩

/-- The loop state after the NonConnectableAdvertisement prefix: cursor at
the payload-length position, length unset, PDU type 2. -/
def nonconnS21 : FromState :=
  ⟨0, 0, 0, 0, 0, 0, prefixResult 2, [], 21, BleLLNonConnIndMsg.new,
   BleLLScanReqMsg.new, false⟩

/-- The loop state after the ScanRequest prefix. -/
def scanS21 : FromState :=
  ⟨0, 0, 0, 0, 0, 0, prefixResult 3, [], 21, BleLLNonConnIndMsg.new,
   BleLLScanReqMsg.new, false⟩

theorem foldl_nonconnPrefix :
    List.foldl fromStep FromState.init nonconnPrefix = nonconnS21 := by decide

theorem foldl_scanPrefix :
    List.foldl fromStep FromState.init scanPrefix = scanS21 := by decide

/-- Reading the length byte `L` at position 21 of the
NonConnectableAdvertisement frame family. -/
theorem nonconn_step_len (L : Nat) :
    fromStep nonconnS21 L =
      ⟨L, 0, 0, 0, 0, 0, prefixResult 2, [], 21, BleLLNonConnIndMsg.new,
       BleLLScanReqMsg.new, false⟩ := by
  rw [fromStep_21_len0 nonconnS21 L rfl rfl rfl]
  rfl

/-- The no-op byte after a nonzero length byte of the
NonConnectableAdvertisement frame family. -/
theorem nonconn_step_noop (L x : Nat) (hL : L ≠ 0) :
    fromStep (⟨L, 0, 0, 0, 0, 0, prefixResult 2, [], 21, BleLLNonConnIndMsg.new,
       BleLLScanReqMsg.new, false⟩ : FromState) x =
      ⟨L, 0, 0, 0, 0, 0, prefixResult 2, [], 22, BleLLNonConnIndMsg.new,
       BleLLScanReqMsg.new, false⟩ := by
  rw [fromStep_21_check _ x rfl rfl hL]
  rw [if_neg]
  rintro ⟨hpdu, -⟩
  simp [prefixResult, ADV_TYPE_SCAN_REQ] at hpdu

/-- Claim C4 counterexample: in a frame whose byte at the first visit of
the length position is 12 and whose following byte is 5, the decoder takes
the payload length 12 from the *first* byte — the first occurrence is not
a no-op and the length is not read from the following byte when the first
byte is nonzero. -/
theorem claim_C4_counterexample :
    (List.foldl fromStep FromState.init
        (nonconnPrefix ++ [12, 5, 9])).ll_payload_len = 12 ∧
    (nonconnPrefix ++ [12, 5, 9])[21]? = some 12 ∧
    (nonconnPrefix ++ [12, 5, 9])[22]? = some 5 := by
  refine ⟨by decide, by decide, by decide⟩

/-- Claim C4 (amended): at the payload-length position the decoder re-reads
the position while the byte is zero (each zero byte is consumed as padding
with the cursor rewound), and the first nonzero byte becomes the link-layer
payload length; the byte after that nonzero length byte is consumed as the
no-op where the ScanRequest check runs.  In particular, with the wire's
zero padding byte at position 21 the length is read from the following
byte, but a nonzero byte at position 21 is itself taken as the length. -/
theorem claim_C4_amended (L x : Nat) (hL : L ≠ 0) :
    ((List.foldl fromStep FromState.init
        (nonconnPrefix ++ [0, L, x])).ll_payload_len = L ∧
     (List.foldl fromStep FromState.init
        (nonconnPrefix ++ [0, L, x])).byte_index = 22) ∧
    ((List.foldl fromStep FromState.init
        (nonconnPrefix ++ [L, x])).ll_payload_len = L ∧
     (List.foldl fromStep FromState.init
        (nonconnPrefix ++ [L, x])).byte_index = 22) := by
  have hz : fromStep nonconnS21 0 = nonconnS21 := nonconn_step_len 0
  constructor
  · rw [List.foldl_append, foldl_nonconnPrefix]
    simp only [List.foldl_cons, List.foldl_nil, hz, nonconn_step_len L,
      nonconn_step_noop L x hL]
    exact ⟨by trivial, by trivial⟩
  · rw [List.foldl_append, foldl_nonconnPrefix]
    simp only [List.foldl_cons, List.foldl_nil, nonconn_step_len L,
      nonconn_step_noop L x hL]
    exact ⟨by trivial, by trivial⟩

/-- Claim C4 witness: the amended theorem at length byte 7 and check
byte 0. -/
theorem claim_C4_witness :
    ((List.foldl fromStep FromState.init
        (nonconnPrefix ++ [0, 7, 0])).ll_payload_len = 7 ∧
     (List.foldl fromStep FromState.init
        (nonconnPrefix ++ [0, 7, 0])).byte_index = 22) ∧
    ((List.foldl fromStep FromState.init
        (nonconnPrefix ++ [7, 0])).ll_payload_len = 7 ∧
     (List.foldl fromStep FromState.init
        (nonconnPrefix ++ [7, 0])).byte_index = 22) :=
  claim_C4_amended 7 0 (by decide)

/-- Reading the length byte `L` at position 21 of the ScanRequest frame
family. -/
theorem scan_step_len (L : Nat) :
    fromStep scanS21 L =
      ⟨L, 0, 0, 0, 0, 0, prefixResult 3, [], 21, BleLLNonConnIndMsg.new,
       BleLLScanReqMsg.new, false⟩ := by
  rw [fromStep_21_len0 scanS21 L rfl rfl rfl]
  rfl

/-- The byte after a nonzero length byte ≠ 12 of the ScanRequest frame
family: the length check fires and decoding aborts. -/
theorem scan_step_abort (L x : Nat) (hL : L ≠ 0) (h12 : L ≠ 12) :
    fromStep (⟨L, 0, 0, 0, 0, 0, prefixResult 3, [], 21, BleLLNonConnIndMsg.new,
       BleLLScanReqMsg.new, false⟩ : FromState) x =
      ⟨L, 0, 0, 0, 0, 0, prefixResult 3, [], 21, BleLLNonConnIndMsg.new,
       BleLLScanReqMsg.new, true⟩ := by
  rw [fromStep_21_check _ x rfl rfl hL]
  rw [if_pos ⟨rfl, h12⟩]

/-- Claim C5 counterexample: a ScanRequest frame that ends right after a
declared payload length of 5 decodes with `valid = true` and a constructed
(default) ScanRequest record, although 5 ≠ 12 — the length check never
runs when no byte follows the length byte. -/
theorem claim_C5_counterexample :
    (BlePacket.fromBytes (scanPrefix ++ [5])).valid = true ∧
    (BlePacket.fromBytes (scanPrefix ++ [5])).ll_layer_data.scan_req =
      some BleLLScanReqMsg.new ∧
    (scanPrefix ++ [5])[21]? = some 5 ∧ (5 : Nat) ≠ 12 := by
  refine ⟨by decide, by decide, by decide, by decide⟩

/-- Claim C5 (amended): when the decoder consumes a byte after a nonzero
declared length that differs from 12 on a ScanRequest frame, the packet is
invalid and no ScanRequest record is constructed; but a ScanRequest frame
that ends at the length byte is decoded `valid = true` with a (default)
ScanRequest record regardless of the declared length — the record is
constructed for every completing ScanRequest decode, not only for length
12. -/
theorem claim_C5_amended :
    (∀ (L x : Nat) (tail : List Nat), L ≠ 0 → L ≠ 12 →
      (BlePacket.fromBytes (scanPrefix ++ L :: x :: tail)).valid = false ∧
      (BlePacket.fromBytes (scanPrefix ++ L :: x :: tail)).ll_layer_data.scan_req
        = none) ∧
    (∀ L : Nat, L ≠ 0 →
      (BlePacket.fromBytes (scanPrefix ++ [L])).valid = true ∧
      (BlePacket.fromBytes (scanPrefix ++ [L])).ll_layer_data.scan_req =
        some BleLLScanReqMsg.new) := by
  constructor
  · intro L x tail hL h12
    unfold BlePacket.fromBytes
    rw [List.foldl_append, foldl_scanPrefix]
    simp only [List.foldl_cons, scan_step_len L, scan_step_abort L x hL h12]
    rw [foldl_fromStep_absorb tail _ rfl]
    exact ⟨rfl, rfl⟩
  · intro L hL
    unfold BlePacket.fromBytes
    rw [List.foldl_append, foldl_scanPrefix]
    simp only [List.foldl_cons, List.foldl_nil, scan_step_len L]
    exact ⟨rfl, rfl⟩

/-- Claim C5 witness: the amended theorem at declared length 5. -/
theorem claim_C5_witness :
    ((BlePacket.fromBytes (scanPrefix ++ [5, 0])).valid = false ∧
     (BlePacket.fromBytes (scanPrefix ++ [5, 0])).ll_layer_data.scan_req = none) ∧
    ((BlePacket.fromBytes (scanPrefix ++ [5])).valid = true ∧
     (BlePacket.fromBytes (scanPrefix ++ [5])).ll_layer_data.scan_req =
       some BleLLScanReqMsg.new) :=
  ⟨claim_C5_amended.1 5 0 [] (by decide) (by decide),
   claim_C5_amended.2 5 (by decide)⟩

/-- Claim C10: MAC bytes are stored reversed.  For the
NonConnectableAdvertisement family the six wire bytes b0..b5 decode to the
advertiser MAC [b5,b4,b3,b2,b1,b0]; for the ScanRequest family the first
six payload bytes become the scanner MAC and the next six the advertiser
MAC, each reversed, so stored mac[i] is wire byte 5-i. -/
theorem claim_C10_mac_reversal :
    (∀ b0 b1 b2 b3 b4 b5 : Nat,
      (BlePacket.fromBytes
          (nonconnPrefix ++ [6, 0, b0, b1, b2, b3, b4, b5])).ll_layer_data.non_conn_ind =
        some ⟨[b5, b4, b3, b2, b1, b0], [], none, none, none, none⟩) ∧
    (∀ s0 s1 s2 s3 s4 s5 a0 a1 a2 a3 a4 a5 : Nat,
      (BlePacket.fromBytes
          (scanPrefix ++ [12, 0, s0, s1, s2, s3, s4, s5,
            a0, a1, a2, a3, a4, a5])).ll_layer_data.scan_req =
        some ⟨[s5, s4, s3, s2, s1, s0], [a5, a4, a3, a2, a1, a0]⟩) := by
  constructor
  · intro b0 b1 b2 b3 b4 b5
    have hn0 : fromStep (⟨6, 0, 0, 0, 0, 0, prefixResult 2, [], 22, BleLLNonConnIndMsg.new, BleLLScanReqMsg.new, false⟩ : FromState) b0 =
        (⟨6, 1, 0, 0, 0, 0, prefixResult 2, [], 23, ⟨[0, 0, 0, 0, 0, b0], [], none, none, none, none⟩, BleLLScanReqMsg.new, false⟩ : FromState) := by rfl
    have hn1 : fromStep (⟨6, 1, 0, 0, 0, 0, prefixResult 2, [], 23, ⟨[0, 0, 0, 0, 0, b0], [], none, none, none, none⟩, BleLLScanReqMsg.new, false⟩ : FromState) b1 =
        (⟨6, 2, 0, 0, 0, 0, prefixResult 2, [], 24, ⟨[0, 0, 0, 0, b1, b0], [], none, none, none, none⟩, BleLLScanReqMsg.new, false⟩ : FromState) := by rfl
    have hn2 : fromStep (⟨6, 2, 0, 0, 0, 0, prefixResult 2, [], 24, ⟨[0, 0, 0, 0, b1, b0], [], none, none, none, none⟩, BleLLScanReqMsg.new, false⟩ : FromState) b2 =
        (⟨6, 3, 0, 0, 0, 0, prefixResult 2, [], 25, ⟨[0, 0, 0, b2, b1, b0], [], none, none, none, none⟩, BleLLScanReqMsg.new, false⟩ : FromState) := by rfl
    have hn3 : fromStep (⟨6, 3, 0, 0, 0, 0, prefixResult 2, [], 25, ⟨[0, 0, 0, b2, b1, b0], [], none, none, none, none⟩, BleLLScanReqMsg.new, false⟩ : FromState) b3 =
        (⟨6, 4, 0, 0, 0, 0, prefixResult 2, [], 26, ⟨[0, 0, b3, b2, b1, b0], [], none, none, none, none⟩, BleLLScanReqMsg.new, false⟩ : FromState) := by rfl
    have hn4 : fromStep (⟨6, 4, 0, 0, 0, 0, prefixResult 2, [], 26, ⟨[0, 0, b3, b2, b1, b0], [], none, none, none, none⟩, BleLLScanReqMsg.new, false⟩ : FromState) b4 =
        (⟨6, 5, 0, 0, 0, 0, prefixResult 2, [], 27, ⟨[0, b4, b3, b2, b1, b0], [], none, none, none, none⟩, BleLLScanReqMsg.new, false⟩ : FromState) := by rfl
    have hn5 : fromStep (⟨6, 5, 0, 0, 0, 0, prefixResult 2, [], 27, ⟨[0, b4, b3, b2, b1, b0], [], none, none, none, none⟩, BleLLScanReqMsg.new, false⟩ : FromState) b5 =
        (⟨6, 6, 0, 0, 0, 0, prefixResult 2, [], 28, ⟨[b5, b4, b3, b2, b1, b0], [], none, none, none, none⟩, BleLLScanReqMsg.new, false⟩ : FromState) := by rfl
    unfold BlePacket.fromBytes
    rw [List.foldl_append, foldl_nonconnPrefix]
    rw [List.foldl_cons, nonconn_step_len 6]
    rw [List.foldl_cons, nonconn_step_noop 6 0 (by decide)]
    rw [List.foldl_cons, hn0]
    rw [List.foldl_cons, hn1]
    rw [List.foldl_cons, hn2]
    rw [List.foldl_cons, hn3]
    rw [List.foldl_cons, hn4]
    rw [List.foldl_cons, hn5]
    rw [List.foldl_nil]
    rfl
  · intro s0 s1 s2 s3 s4 s5 a0 a1 a2 a3 a4 a5
    have hs0 : fromStep (⟨12, 0, 0, 0, 0, 0, prefixResult 3, [], 22, BleLLNonConnIndMsg.new, BleLLScanReqMsg.new, false⟩ : FromState) s0 =
        (⟨12, 1, 0, 0, 0, 0, prefixResult 3, [], 23, BleLLNonConnIndMsg.new, ⟨[0, 0, 0, 0, 0, s0], [0, 0, 0, 0, 0, 0]⟩, false⟩ : FromState) := by rfl
    have hs1 : fromStep (⟨12, 1, 0, 0, 0, 0, prefixResult 3, [], 23, BleLLNonConnIndMsg.new, ⟨[0, 0, 0, 0, 0, s0], [0, 0, 0, 0, 0, 0]⟩, false⟩ : FromState) s1 =
        (⟨12, 2, 0, 0, 0, 0, prefixResult 3, [], 24, BleLLNonConnIndMsg.new, ⟨[0, 0, 0, 0, s1, s0], [0, 0, 0, 0, 0, 0]⟩, false⟩ : FromState) := by rfl
    have hs2 : fromStep (⟨12, 2, 0, 0, 0, 0, prefixResult 3, [], 24, BleLLNonConnIndMsg.new, ⟨[0, 0, 0, 0, s1, s0], [0, 0, 0, 0, 0, 0]⟩, false⟩ : FromState) s2 =
        (⟨12, 3, 0, 0, 0, 0, prefixResult 3, [], 25, BleLLNonConnIndMsg.new, ⟨[0, 0, 0, s2, s1, s0], [0, 0, 0, 0, 0, 0]⟩, false⟩ : FromState) := by rfl
    have hs3 : fromStep (⟨12, 3, 0, 0, 0, 0, prefixResult 3, [], 25, BleLLNonConnIndMsg.new, ⟨[0, 0, 0, s2, s1, s0], [0, 0, 0, 0, 0, 0]⟩, false⟩ : FromState) s3 =
        (⟨12, 4, 0, 0, 0, 0, prefixResult 3, [], 26, BleLLNonConnIndMsg.new, ⟨[0, 0, s3, s2, s1, s0], [0, 0, 0, 0, 0, 0]⟩, false⟩ : FromState) := by rfl
    have hs4 : fromStep (⟨12, 4, 0, 0, 0, 0, prefixResult 3, [], 26, BleLLNonConnIndMsg.new, ⟨[0, 0, s3, s2, s1, s0], [0, 0, 0, 0, 0, 0]⟩, false⟩ : FromState) s4 =
        (⟨12, 5, 0, 0, 0, 0, prefixResult 3, [], 27, BleLLNonConnIndMsg.new, ⟨[0, s4, s3, s2, s1, s0], [0, 0, 0, 0, 0, 0]⟩, false⟩ : FromState) := by rfl
    have hs5 : fromStep (⟨12, 5, 0, 0, 0, 0, prefixResult 3, [], 27, BleLLNonConnIndMsg.new, ⟨[0, s4, s3, s2, s1, s0], [0, 0, 0, 0, 0, 0]⟩, false⟩ : FromState) s5 =
        (⟨12, 6, 0, 0, 0, 0, prefixResult 3, [], 28, BleLLNonConnIndMsg.new, ⟨[s5, s4, s3, s2, s1, s0], [0, 0, 0, 0, 0, 0]⟩, false⟩ : FromState) := by rfl
    have hs6 : fromStep (⟨12, 6, 0, 0, 0, 0, prefixResult 3, [], 28, BleLLNonConnIndMsg.new, ⟨[s5, s4, s3, s2, s1, s0], [0, 0, 0, 0, 0, 0]⟩, false⟩ : FromState) a0 =
        (⟨12, 7, 0, 0, 0, 0, prefixResult 3, [], 29, BleLLNonConnIndMsg.new, ⟨[s5, s4, s3, s2, s1, s0], [0, 0, 0, 0, 0, a0]⟩, false⟩ : FromState) := by rfl
    have hs7 : fromStep (⟨12, 7, 0, 0, 0, 0, prefixResult 3, [], 29, BleLLNonConnIndMsg.new, ⟨[s5, s4, s3, s2, s1, s0], [0, 0, 0, 0, 0, a0]⟩, false⟩ : FromState) a1 =
        (⟨12, 8, 0, 0, 0, 0, prefixResult 3, [], 30, BleLLNonConnIndMsg.new, ⟨[s5, s4, s3, s2, s1, s0], [0, 0, 0, 0, a1, a0]⟩, false⟩ : FromState) := by rfl
    have hs8 : fromStep (⟨12, 8, 0, 0, 0, 0, prefixResult 3, [], 30, BleLLNonConnIndMsg.new, ⟨[s5, s4, s3, s2, s1, s0], [0, 0, 0, 0, a1, a0]⟩, false⟩ : FromState) a2 =
        (⟨12, 9, 0, 0, 0, 0, prefixResult 3, [], 31, BleLLNonConnIndMsg.new, ⟨[s5, s4, s3, s2, s1, s0], [0, 0, 0, a2, a1, a0]⟩, false⟩ : FromState) := by rfl
    have hs9 : fromStep (⟨12, 9, 0, 0, 0, 0, prefixResult 3, [], 31, BleLLNonConnIndMsg.new, ⟨[s5, s4, s3, s2, s1, s0], [0, 0, 0, a2, a1, a0]⟩, false⟩ : FromState) a3 =
        (⟨12, 10, 0, 0, 0, 0, prefixResult 3, [], 32, BleLLNonConnIndMsg.new, ⟨[s5, s4, s3, s2, s1, s0], [0, 0, a3, a2, a1, a0]⟩, false⟩ : FromState) := by rfl
    have hs10 : fromStep (⟨12, 10, 0, 0, 0, 0, prefixResult 3, [], 32, BleLLNonConnIndMsg.new, ⟨[s5, s4, s3, s2, s1, s0], [0, 0, a3, a2, a1, a0]⟩, false⟩ : FromState) a4 =
        (⟨12, 11, 0, 0, 0, 0, prefixResult 3, [], 33, BleLLNonConnIndMsg.new, ⟨[s5, s4, s3, s2, s1, s0], [0, a4, a3, a2, a1, a0]⟩, false⟩ : FromState) := by rfl
    have hs11 : fromStep (⟨12, 11, 0, 0, 0, 0, prefixResult 3, [], 33, BleLLNonConnIndMsg.new, ⟨[s5, s4, s3, s2, s1, s0], [0, a4, a3, a2, a1, a0]⟩, false⟩ : FromState) a5 =
        (⟨12, 12, 0, 0, 0, 0, prefixResult 3, [], 34, BleLLNonConnIndMsg.new, ⟨[s5, s4, s3, s2, s1, s0], [a5, a4, a3, a2, a1, a0]⟩, false⟩ : FromState) := by rfl
    unfold BlePacket.fromBytes
    rw [List.foldl_append, foldl_scanPrefix]
    rw [List.foldl_cons, scan_step_len 12]
    have hnoop : fromStep (⟨12, 0, 0, 0, 0, 0, prefixResult 3, [], 21,
        BleLLNonConnIndMsg.new, BleLLScanReqMsg.new, false⟩ : FromState) 0 =
        ⟨12, 0, 0, 0, 0, 0, prefixResult 3, [], 22,
         BleLLNonConnIndMsg.new, BleLLScanReqMsg.new, false⟩ := by
      rw [fromStep_21_check _ 0 rfl rfl (by decide)]
      rw [if_neg (by rintro ⟨-, h12⟩; exact h12 rfl)]
    rw [List.foldl_cons, hnoop]
    rw [List.foldl_cons, hs0]
    rw [List.foldl_cons, hs1]
    rw [List.foldl_cons, hs2]
    rw [List.foldl_cons, hs3]
    rw [List.foldl_cons, hs4]
    rw [List.foldl_cons, hs5]
    rw [List.foldl_cons, hs6]
    rw [List.foldl_cons, hs7]
    rw [List.foldl_cons, hs8]
    rw [List.foldl_cons, hs9]
    rw [List.foldl_cons, hs10]
    rw [List.foldl_cons, hs11]
    rw [List.foldl_nil]
    rfl

/-- Claim C9: last-write-wins for duplicate AD structures of a recognized
type — a NonConnectableAdvertisement payload with two Flags structures
(type 0x01) and different flag bytes decodes to the Flags bits of the
*second* structure. -/
theorem claim_C9_flags_last_write_wins (f1 f2 : Nat) :
    (BlePacket.fromBytes
        (nonconnPrefix ++ [12, 0, 0, 0, 0, 0, 0, 0,
          2, 1, f1, 2, 1, f2])).ll_layer_data.non_conn_ind =
      some ⟨[0, 0, 0, 0, 0, 0], [1, 1], some (BleLLDataFlags.fromByte f2),
        none, none, none⟩ := by
  have hz0 : fromStep (⟨12, 0, 0, 0, 0, 0, prefixResult 2, [], 22, BleLLNonConnIndMsg.new, BleLLScanReqMsg.new, false⟩ : FromState) 0 =
      (⟨12, 1, 0, 0, 0, 0, prefixResult 2, [], 23, ⟨[0, 0, 0, 0, 0, 0], [], none, none, none, none⟩, BleLLScanReqMsg.new, false⟩ : FromState) := by rfl
  have hz1 : fromStep (⟨12, 1, 0, 0, 0, 0, prefixResult 2, [], 23, ⟨[0, 0, 0, 0, 0, 0], [], none, none, none, none⟩, BleLLScanReqMsg.new, false⟩ : FromState) 0 =
      (⟨12, 2, 0, 0, 0, 0, prefixResult 2, [], 24, ⟨[0, 0, 0, 0, 0, 0], [], none, none, none, none⟩, BleLLScanReqMsg.new, false⟩ : FromState) := by rfl
  have hz2 : fromStep (⟨12, 2, 0, 0, 0, 0, prefixResult 2, [], 24, ⟨[0, 0, 0, 0, 0, 0], [], none, none, none, none⟩, BleLLScanReqMsg.new, false⟩ : FromState) 0 =
      (⟨12, 3, 0, 0, 0, 0, prefixResult 2, [], 25, ⟨[0, 0, 0, 0, 0, 0], [], none, none, none, none⟩, BleLLScanReqMsg.new, false⟩ : FromState) := by rfl
  have hz3 : fromStep (⟨12, 3, 0, 0, 0, 0, prefixResult 2, [], 25, ⟨[0, 0, 0, 0, 0, 0], [], none, none, none, none⟩, BleLLScanReqMsg.new, false⟩ : FromState) 0 =
      (⟨12, 4, 0, 0, 0, 0, prefixResult 2, [], 26, ⟨[0, 0, 0, 0, 0, 0], [], none, none, none, none⟩, BleLLScanReqMsg.new, false⟩ : FromState) := by rfl
  have hz4 : fromStep (⟨12, 4, 0, 0, 0, 0, prefixResult 2, [], 26, ⟨[0, 0, 0, 0, 0, 0], [], none, none, none, none⟩, BleLLScanReqMsg.new, false⟩ : FromState) 0 =
      (⟨12, 5, 0, 0, 0, 0, prefixResult 2, [], 27, ⟨[0, 0, 0, 0, 0, 0], [], none, none, none, none⟩, BleLLScanReqMsg.new, false⟩ : FromState) := by rfl
  have hz5 : fromStep (⟨12, 5, 0, 0, 0, 0, prefixResult 2, [], 27, ⟨[0, 0, 0, 0, 0, 0], [], none, none, none, none⟩, BleLLScanReqMsg.new, false⟩ : FromState) 0 =
      (⟨12, 6, 0, 0, 0, 0, prefixResult 2, [], 28, ⟨[0, 0, 0, 0, 0, 0], [], none, none, none, none⟩, BleLLScanReqMsg.new, false⟩ : FromState) := by rfl
  have ht0 : fromStep (⟨12, 6, 0, 0, 0, 0, prefixResult 2, [], 28, ⟨[0, 0, 0, 0, 0, 0], [], none, none, none, none⟩, BleLLScanReqMsg.new, false⟩ : FromState) 2 =
      (⟨12, 7, 1, 2, 0, 0, prefixResult 2, [], 29, ⟨[0, 0, 0, 0, 0, 0], [], none, none, none, none⟩, BleLLScanReqMsg.new, false⟩ : FromState) := by rfl
  have ht1 : fromStep (⟨12, 7, 1, 2, 0, 0, prefixResult 2, [], 29, ⟨[0, 0, 0, 0, 0, 0], [], none, none, none, none⟩, BleLLScanReqMsg.new, false⟩ : FromState) 1 =
      (⟨12, 8, 2, 2, 1, 1, prefixResult 2, [], 30, ⟨[0, 0, 0, 0, 0, 0], [1], none, none, none, none⟩, BleLLScanReqMsg.new, false⟩ : FromState) := by rfl
  have ht2 : fromStep (⟨12, 8, 2, 2, 1, 1, prefixResult 2, [], 30, ⟨[0, 0, 0, 0, 0, 0], [1], none, none, none, none⟩, BleLLScanReqMsg.new, false⟩ : FromState) f1 =
      (⟨12, 9, 0, 2, 2, 1, prefixResult 2, [], 31, ⟨[0, 0, 0, 0, 0, 0], [1], some (BleLLDataFlags.fromByte f1), none, none, none⟩, BleLLScanReqMsg.new, false⟩ : FromState) := by rfl
  have ht3 : fromStep (⟨12, 9, 0, 2, 2, 1, prefixResult 2, [], 31, ⟨[0, 0, 0, 0, 0, 0], [1], some (BleLLDataFlags.fromByte f1), none, none, none⟩, BleLLScanReqMsg.new, false⟩ : FromState) 2 =
      (⟨12, 10, 1, 2, 0, 0, prefixResult 2, [], 32, ⟨[0, 0, 0, 0, 0, 0], [1], some (BleLLDataFlags.fromByte f1), none, none, none⟩, BleLLScanReqMsg.new, false⟩ : FromState) := by rfl
  have ht4 : fromStep (⟨12, 10, 1, 2, 0, 0, prefixResult 2, [], 32, ⟨[0, 0, 0, 0, 0, 0], [1], some (BleLLDataFlags.fromByte f1), none, none, none⟩, BleLLScanReqMsg.new, false⟩ : FromState) 1 =
      (⟨12, 11, 2, 2, 1, 1, prefixResult 2, [], 33, ⟨[0, 0, 0, 0, 0, 0], [1, 1], some (BleLLDataFlags.fromByte f1), none, none, none⟩, BleLLScanReqMsg.new, false⟩ : FromState) := by rfl
  have ht5 : fromStep (⟨12, 11, 2, 2, 1, 1, prefixResult 2, [], 33, ⟨[0, 0, 0, 0, 0, 0], [1, 1], some (BleLLDataFlags.fromByte f1), none, none, none⟩, BleLLScanReqMsg.new, false⟩ : FromState) f2 =
      (⟨12, 12, 0, 2, 2, 1, prefixResult 2, [], 34, ⟨[0, 0, 0, 0, 0, 0], [1, 1], some (BleLLDataFlags.fromByte f2), none, none, none⟩, BleLLScanReqMsg.new, false⟩ : FromState) := by rfl
  unfold BlePacket.fromBytes
  rw [List.foldl_append, foldl_nonconnPrefix]
  rw [List.foldl_cons, nonconn_step_len 12]
  rw [List.foldl_cons, nonconn_step_noop 12 0 (by decide)]
  rw [List.foldl_cons, hz0]
  rw [List.foldl_cons, hz1]
  rw [List.foldl_cons, hz2]
  rw [List.foldl_cons, hz3]
  rw [List.foldl_cons, hz4]
  rw [List.foldl_cons, hz5]
  rw [List.foldl_cons, ht0]
  rw [List.foldl_cons, ht1]
  rw [List.foldl_cons, ht2]
  rw [List.foldl_cons, ht3]
  rw [List.foldl_cons, ht4]
  rw [List.foldl_cons, ht5]
  rw [List.foldl_nil]
  rfl

@[simp] theorem metaStep_crc (s : FromState) (b : Nat) :
    (metaStep s b).result.packet_header.crc_ok = (b &&& 1 == 1) := by
  unfold metaStep
  split_ifs <;> rfl

@[simp] theorem metaStep_phy (s : FromState) (b : Nat) :
    (metaStep s b).result.packet_header.phy = (b &&& 0b1110000) >>> 4 := by
  unfold metaStep
  split_ifs <;> rfl

@[simp] theorem metaStep_packet_id (s : FromState) (b : Nat) :
    (metaStep s b).result.packet_id = s.result.packet_id := rfl

theorem metaStep_data_header (s : FromState) (b : Nat) :
    (metaStep s b).result.packet_header.data_header =
      (if s.result.packet_id = EVENT_PACKET_DATA_PDU then
        some ⟨(b &&& 0b10) >>> 1 == 1, (b &&& 0b100) >>> 2 == 1, (b &&& 0b1000) >>> 3 == 1⟩
       else s.result.packet_header.data_header) := by
  unfold metaStep
  split_ifs <;> simp_all

theorem metaStep_adv_header (s : FromState) (b : Nat) :
    (metaStep s b).result.packet_header.adv_header =
      (if s.result.packet_id ≠ EVENT_PACKET_DATA_PDU ∧
          s.result.packet_id = EVENT_PACKET_ADV_PDU then
        some ⟨(b &&& 0b110) >>> 1, (b &&& 0b1000) >>> 3 == 1⟩
       else s.result.packet_header.adv_header) := by
  unfold metaStep
  split_ifs <;> simp_all

/-- The loop iteration at cursor 7 is exactly the metadata step plus the
cursor increment. -/
theorem fromStep_at7 (s : FromState) (b : Nat) (hab : s.aborted = false)
    (hbi : s.byte_index = 7) :
    fromStep s b = { metaStep s b with byte_index := 8 } := by
  have hcore : fromStepCore s b = metaStep s b := by
    unfold fromStepCore
    rw [if_neg (by rintro ⟨h, -⟩; omega)]
    rw [if_neg (by omega), if_neg (by omega), if_neg (by omega), if_neg (by omega)]
    rw [if_pos hbi]
  rw [fromStep_eq_core s b hab (by rw [hcore]; simpa using hab)]
  rw [hcore]
  simp [metaStep_byte_index, hbi]

/-- One step of the loop preserves the header-exclusivity invariant: a
data sub-record is only present when the packet id is the data-event
code, an advertising sub-record only when it is the advertising-event
code, and before the metadata byte (cursor at most 7) neither sub-record
is present. -/
theorem fromStepCore_exclusive (s : FromState) (b : Nat) (hab : s.aborted = false)
    (h1 : s.result.packet_header.data_header.isSome = true →
      s.result.packet_id = EVENT_PACKET_DATA_PDU)
    (h2 : s.result.packet_header.adv_header.isSome = true →
      s.result.packet_id = EVENT_PACKET_ADV_PDU)
    (h3 : s.byte_index ≤ 7 → s.result.packet_header.data_header = none ∧
      s.result.packet_header.adv_header = none) :
    ((fromStepCore s b).result.packet_header.data_header.isSome = true →
      (fromStepCore s b).result.packet_id = EVENT_PACKET_DATA_PDU) ∧
    ((fromStepCore s b).result.packet_header.adv_header.isSome = true →
      (fromStepCore s b).result.packet_id = EVENT_PACKET_ADV_PDU) ∧
    ((fromStepCore s b).byte_index ≤ 6 →
      (fromStepCore s b).result.packet_header.data_header = none ∧
      (fromStepCore s b).result.packet_header.adv_header = none) ∧
    ((fromStepCore s b).aborted = true →
      (fromStepCore s b).result.packet_header.data_header =
        s.result.packet_header.data_header ∧
      (fromStepCore s b).result.packet_header.adv_header =
        s.result.packet_header.adv_header ∧
      (fromStepCore s b).byte_index = s.byte_index ∧
      (fromStepCore s b).result.packet_id = s.result.packet_id) := by
  unfold fromStepCore
  by_cases h0 : s.byte_index = 0 ∧ b ≠ HEADER_LENGTH
  · rw [if_pos h0]
    exact ⟨h1, h2, fun hx => h3 (by dsimp only at hx; omega), fun hD => ⟨rfl, rfl, rfl, rfl⟩⟩
  · rw [if_neg h0]
    by_cases hb2 : s.byte_index = 2
    · rw [if_pos hb2]
      exact ⟨h1, h2, fun hx => h3 (by dsimp only at hx; omega), fun hD => absurd hD (by simp [hab])⟩
    · rw [if_neg hb2]
      by_cases hb3 : s.byte_index = 3
      · rw [if_pos hb3]
        exact ⟨h1, h2, fun hx => h3 (by dsimp only at hx; omega), fun hD => absurd hD (by simp [hab])⟩
      · rw [if_neg hb3]
        by_cases hb4 : s.byte_index = 4
        · rw [if_pos hb4]
          exact ⟨h1, h2, fun hx => h3 (by dsimp only at hx; omega), fun hD => absurd hD (by simp [hab])⟩
        · rw [if_neg hb4]
          by_cases hb5 : s.byte_index = 5
          · rw [if_pos hb5]
            have hn := h3 (by omega)
            refine ⟨fun hds => absurd hds (by simp [hn.1]), fun has => absurd has (by simp [hn.2]), fun hx => hn, fun hD => absurd hD (by simp [hab])⟩
          · rw [if_neg hb5]
            by_cases hb7 : s.byte_index = 7
            · rw [if_pos hb7]
              have hn := h3 (by omega)
              refine ⟨?_, ?_, fun hx => False.elim (by rw [metaStep_byte_index] at hx; omega), fun hD => absurd hD (by simp [hab])⟩
              · intro hds
                rw [metaStep_data_header] at hds
                rw [metaStep_packet_id]
                by_cases hp : s.result.packet_id = EVENT_PACKET_DATA_PDU
                · exact hp
                · rw [if_neg hp, hn.1] at hds
                  simp at hds
              · intro has
                rw [metaStep_adv_header] at has
                rw [metaStep_packet_id]
                by_cases hp : s.result.packet_id ≠ EVENT_PACKET_DATA_PDU ∧ s.result.packet_id = EVENT_PACKET_ADV_PDU
                · exact hp.2
                · rw [if_neg hp, hn.2] at has
                  simp at has
            · rw [if_neg hb7]
              by_cases hb8 : s.byte_index = 8
              · rw [if_pos hb8]
                exact ⟨h1, h2, fun hx => h3 (by dsimp only at hx; omega), fun hD => absurd hD (by simp [hab])⟩
              · rw [if_neg hb8]
                by_cases hb9 : s.byte_index = 9
                · rw [if_pos hb9]
                  exact ⟨h1, h2, fun hx => h3 (by dsimp only at hx; omega), fun hD => absurd hD (by simp [hab])⟩
                · rw [if_neg hb9]
                  by_cases hb10 : s.byte_index = 10
                  · rw [if_pos hb10]
                    exact ⟨h1, h2, fun hx => h3 (by dsimp only at hx; omega), fun hD => absurd hD (by simp [hab])⟩
                  · rw [if_neg hb10]
                    by_cases hb11 : s.byte_index = 11
                    · rw [if_pos hb11]
                      exact ⟨h1, h2, fun hx => h3 (by dsimp only at hx; omega), fun hD => absurd hD (by simp [hab])⟩
                    · rw [if_neg hb11]
                      by_cases hb12 : s.byte_index = 12
                      · rw [if_pos hb12]
                        exact ⟨h1, h2, fun hx => h3 (by dsimp only at hx; omega), fun hD => absurd hD (by simp [hab])⟩
                      · rw [if_neg hb12]
                        by_cases hb13 : s.byte_index = 13
                        · rw [if_pos hb13]
                          exact ⟨h1, h2, fun hx => h3 (by dsimp only at hx; omega), fun hD => absurd hD (by simp [hab])⟩
                        · rw [if_neg hb13]
                          by_cases hb14 : s.byte_index = 14
                          · rw [if_pos hb14]
                            exact ⟨h1, h2, fun hx => h3 (by dsimp only at hx; omega), fun hD => absurd hD (by simp [hab])⟩
                          · rw [if_neg hb14]
                            by_cases hb15 : s.byte_index = 15
                            · rw [if_pos hb15]
                              exact ⟨h1, h2, fun hx => h3 (by dsimp only at hx; omega), fun hD => absurd hD (by simp [hab])⟩
                            · rw [if_neg hb15]
                              by_cases hb16 : s.byte_index = 16
                              · rw [if_pos hb16]
                                exact ⟨h1, h2, fun hx => h3 (by dsimp only at hx; omega), fun hD => absurd hD (by simp [hab])⟩
                              · rw [if_neg hb16]
                                by_cases hb17 : s.byte_index = 17
                                · rw [if_pos hb17]
                                  exact ⟨h1, h2, fun hx => h3 (by dsimp only at hx; omega), fun hD => absurd hD (by simp [hab])⟩
                                · rw [if_neg hb17]
                                  by_cases hb18 : s.byte_index = 18
                                  · rw [if_pos hb18]
                                    exact ⟨h1, h2, fun hx => h3 (by dsimp only at hx; omega), fun hD => absurd hD (by simp [hab])⟩
                                  · rw [if_neg hb18]
                                    by_cases hb19 : s.byte_index = 19
                                    · rw [if_pos hb19]
                                      exact ⟨h1, h2, fun hx => h3 (by dsimp only at hx; omega), fun hD => absurd hD (by simp [hab])⟩
                                    · rw [if_neg hb19]
                                      by_cases hb20 : s.byte_index = 20
                                      · rw [if_pos hb20]
                                        exact ⟨h1, h2, fun hx => h3 (by dsimp only at hx; omega), fun hD => absurd hD (by simp [hab])⟩
                                      · rw [if_neg hb20]
                                        by_cases hb21 : s.byte_index = 21
                                        · rw [if_pos hb21]
                                          by_cases h21a : s.ll_payload_len = 0
                                          · rw [if_pos h21a]
                                            exact ⟨h1, h2, fun hx => False.elim (by dsimp only at hx; omega), fun hD => absurd hD (by simp [hab])⟩
                                          · rw [if_neg h21a]
                                            by_cases h21b : s.result.ll_layer_data.pdu_type = ADV_TYPE_SCAN_REQ ∧ s.ll_payload_len ≠ 12
                                            · rw [if_pos h21b]
                                              exact ⟨h1, h2, fun hx => h3 (by dsimp only at hx; omega), fun hD => ⟨rfl, rfl, rfl, rfl⟩⟩
                                            · rw [if_neg h21b]
                                              exact ⟨h1, h2, fun hx => h3 (by omega), fun hD => absurd hD (by simp [hab])⟩
                                        · rw [if_neg hb21]
                                          by_cases hb22 : 22 ≤ s.byte_index ∧ s.byte_index ≤ 27
                                          · rw [if_pos hb22]
                                            simp only [macStep_result, macStep_byte_index, macStep_aborted]
                                            exact ⟨h1, h2, fun hx => h3 (by omega), fun hD => absurd hD (by simp [hab])⟩
                                          · rw [if_neg hb22]
                                            simp only [payloadStep_result, payloadStep_byte_index, payloadStep_aborted]
                                            exact ⟨h1, h2, fun hx => h3 (by omega), fun hD => absurd hD (by simp [hab])⟩

theorem fromStep_exclusive (s : FromState) (b : Nat)
    (h1 : s.result.packet_header.data_header.isSome = true →
      s.result.packet_id = EVENT_PACKET_DATA_PDU)
    (h2 : s.result.packet_header.adv_header.isSome = true →
      s.result.packet_id = EVENT_PACKET_ADV_PDU)
    (h3 : s.byte_index ≤ 7 → s.result.packet_header.data_header = none ∧
      s.result.packet_header.adv_header = none) :
    ((fromStep s b).result.packet_header.data_header.isSome = true →
      (fromStep s b).result.packet_id = EVENT_PACKET_DATA_PDU) ∧
    ((fromStep s b).result.packet_header.adv_header.isSome = true →
      (fromStep s b).result.packet_id = EVENT_PACKET_ADV_PDU) ∧
    ((fromStep s b).byte_index ≤ 7 →
      (fromStep s b).result.packet_header.data_header = none ∧
      (fromStep s b).result.packet_header.adv_header = none) := by
  by_cases hab : s.aborted = true
  · rw [fromStep_absorb s b hab]
    exact ⟨h1, h2, h3⟩
  · replace hab : s.aborted = false := by simpa using hab
    obtain ⟨A, B, C, D⟩ := fromStepCore_exclusive s b hab h1 h2 h3
    by_cases hcab : (fromStepCore s b).aborted = true
    · rw [fromStep_eq_core_abort s b hab hcab]
      obtain ⟨d1, d2, d3, d4⟩ := D hcab
      refine ⟨A, B, fun hx => ?_⟩
      rw [d1, d2]
      exact h3 (by rw [d3] at hx; omega)
    · rw [fromStep_eq_core s b hab (by simpa using hcab)]
      exact ⟨A, B, fun hx => C (by dsimp only at hx; omega)⟩

theorem foldl_fromStep_exclusive (l : List Nat) :
    ∀ s : FromState,
    (s.result.packet_header.data_header.isSome = true →
      s.result.packet_id = EVENT_PACKET_DATA_PDU) →
    (s.result.packet_header.adv_header.isSome = true →
      s.result.packet_id = EVENT_PACKET_ADV_PDU) →
    (s.byte_index ≤ 7 → s.result.packet_header.data_header = none ∧
      s.result.packet_header.adv_header = none) →
    ((l.foldl fromStep s).result.packet_header.data_header.isSome = true →
      (l.foldl fromStep s).result.packet_id = EVENT_PACKET_DATA_PDU) ∧
    ((l.foldl fromStep s).result.packet_header.adv_header.isSome = true →
      (l.foldl fromStep s).result.packet_id = EVENT_PACKET_ADV_PDU) := by
  induction l with
  | nil => intro s h1 h2 _; exact ⟨h1, h2⟩
  | cons b rest ih =>
    intro s h1 h2 h3
    obtain ⟨A, B, C⟩ := fromStep_exclusive s b h1 h2 h3
    rw [List.foldl_cons]
    exact ih _ A B C

/-- The decoded packet's header equals the loop state's header (the
finalization only touches `valid` and the link-layer messages). -/
theorem fromBytes_packet_header (bytes : List Nat) :
    (BlePacket.fromBytes bytes).packet_header =
      (bytes.foldl fromStep FromState.init).result.packet_header := by
  unfold BlePacket.fromBytes
  dsimp only
  split_ifs <;> rfl

/-- Claim C6 counterexample: with packet-type id 6 (data event), byte 6 of
the frame set to 0xFF and byte 7 set to 0x10, the decoded CRC flag is
false and the PHY is 1 — but under the claim (metadata in byte 6, PHY in
bits 1-3) the CRC flag would be true and the PHY would be 7.  The
metadata lives in byte 7, and the PHY in its bits 4-6. -/
theorem claim_C6_counterexample :
    (BlePacket.fromBytes [6, 0, 0, 0, 0, 6, 0xFF, 0x10]).packet_header.crc_ok
      = false ∧
    (BlePacket.fromBytes [6, 0, 0, 0, 0, 6, 0xFF, 0x10]).packet_header.phy = 1 ∧
    ([6, 0, 0, 0, 0, 6, 0xFF, 0x10] : List Nat)[6]? = some 0xFF ∧
    (0xFF &&& 1 == 1) = true ∧ (0xFF &&& 0b1110) >>> 1 = 7 := by
  refine ⟨by decide, by decide, by decide, by decide, by decide⟩

/-- Claim C6 (amended): byte 7 of the unescaped frame (byte 6 is skipped
by the decoder) holds the packet metadata: bit 0 is the CRC-ok flag, bits
4-6 select the PHY, and bits 1-3 are decoded as the data-PDU sub-record
exactly when the packet-type id equals the data-event code 0x06, or as
the advertising-PDU sub-record (aux-type at bits 1-2, address-resolved at
bit 3) exactly when it is not the data-event code and equals the
advertising-event code 0x02; at most one of the two sub-records is ever
populated in any decoded packet. -/
theorem claim_C6_amended :
    (∀ pid x6 m : Nat,
      (BlePacket.fromBytes [6, 0, 0, 0, 0, pid, x6, m]).packet_header.crc_ok =
        (m &&& 1 == 1) ∧
      (BlePacket.fromBytes [6, 0, 0, 0, 0, pid, x6, m]).packet_header.phy =
        (m &&& 0b1110000) >>> 4 ∧
      (BlePacket.fromBytes [6, 0, 0, 0, 0, pid, x6, m]).packet_header.data_header =
        (if pid = EVENT_PACKET_DATA_PDU then
          some ⟨(m &&& 0b10) >>> 1 == 1, (m &&& 0b100) >>> 2 == 1,
            (m &&& 0b1000) >>> 3 == 1⟩
         else none) ∧
      (BlePacket.fromBytes [6, 0, 0, 0, 0, pid, x6, m]).packet_header.adv_header =
        (if pid ≠ EVENT_PACKET_DATA_PDU ∧ pid = EVENT_PACKET_ADV_PDU then
          some ⟨(m &&& 0b110) >>> 1, (m &&& 0b1000) >>> 3 == 1⟩
         else none)) ∧
    (∀ bytes : List Nat,
      ¬((BlePacket.fromBytes bytes).packet_header.data_header.isSome = true ∧
        (BlePacket.fromBytes bytes).packet_header.adv_header.isSome = true)) := by
  constructor
  · intro pid x6 m
    have e0 : fromStep FromState.init 6 =
        ⟨0, 0, 0, 0, 0, 0, BlePacket.new, [], 1, BleLLNonConnIndMsg.new,
         BleLLScanReqMsg.new, false⟩ := by rfl
    have e1 : fromStep (⟨0, 0, 0, 0, 0, 0, BlePacket.new, [], 1,
        BleLLNonConnIndMsg.new, BleLLScanReqMsg.new, false⟩ : FromState) 0 =
        ⟨0, 0, 0, 0, 0, 0, BlePacket.new, [], 2, BleLLNonConnIndMsg.new,
         BleLLScanReqMsg.new, false⟩ := by rfl
    have e2 : fromStep (⟨0, 0, 0, 0, 0, 0, BlePacket.new, [], 2,
        BleLLNonConnIndMsg.new, BleLLScanReqMsg.new, false⟩ : FromState) 0 =
        ⟨0, 0, 0, 0, 0, 0, BlePacket.new, [], 3, BleLLNonConnIndMsg.new,
         BleLLScanReqMsg.new, false⟩ := by rfl
    have e3 : fromStep (⟨0, 0, 0, 0, 0, 0, BlePacket.new, [], 3,
        BleLLNonConnIndMsg.new, BleLLScanReqMsg.new, false⟩ : FromState) 0 =
        ⟨0, 0, 0, 0, 0, 0, BlePacket.new, [], 4, BleLLNonConnIndMsg.new,
         BleLLScanReqMsg.new, false⟩ := by rfl
    have e4 : fromStep (⟨0, 0, 0, 0, 0, 0, BlePacket.new, [], 4,
        BleLLNonConnIndMsg.new, BleLLScanReqMsg.new, false⟩ : FromState) 0 =
        ⟨0, 0, 0, 0, 0, 0, BlePacket.new, [], 5, BleLLNonConnIndMsg.new,
         BleLLScanReqMsg.new, false⟩ := by rfl
    have e5 : fromStep (⟨0, 0, 0, 0, 0, 0, BlePacket.new, [], 5,
        BleLLNonConnIndMsg.new, BleLLScanReqMsg.new, false⟩ : FromState) pid =
        ⟨0, 0, 0, 0, 0, 0,
         ⟨false, 0, 0, pid, ⟨0, false, none, none, 0, 0, 0, 0, 0⟩,
          ⟨0, 0, 0, false, false, none, none⟩⟩, [], 6, BleLLNonConnIndMsg.new,
         BleLLScanReqMsg.new, false⟩ := by rfl
    have e6 : fromStep (⟨0, 0, 0, 0, 0, 0,
        ⟨false, 0, 0, pid, ⟨0, false, none, none, 0, 0, 0, 0, 0⟩,
         ⟨0, 0, 0, false, false, none, none⟩⟩, [], 6, BleLLNonConnIndMsg.new,
        BleLLScanReqMsg.new, false⟩ : FromState) x6 =
        ⟨0, 0, 0, 0, 0, 0,
         ⟨false, 0, 0, pid, ⟨0, false, none, none, 0, 0, 0, 0, 0⟩,
          ⟨0, 0, 0, false, false, none, none⟩⟩, [], 7, BleLLNonConnIndMsg.new,
         BleLLScanReqMsg.new, false⟩ := by rfl
    have e7 := fromStep_at7 (⟨0, 0, 0, 0, 0, 0,
        ⟨false, 0, 0, pid, ⟨0, false, none, none, 0, 0, 0, 0, 0⟩,
         ⟨0, 0, 0, false, false, none, none⟩⟩, [], 7, BleLLNonConnIndMsg.new,
        BleLLScanReqMsg.new, false⟩ : FromState) m rfl rfl
    have hfb : BlePacket.fromBytes [6, 0, 0, 0, 0, pid, x6, m] =
        { (metaStep (⟨0, 0, 0, 0, 0, 0,
            ⟨false, 0, 0, pid, ⟨0, false, none, none, 0, 0, 0, 0, 0⟩,
             ⟨0, 0, 0, false, false, none, none⟩⟩, [], 7, BleLLNonConnIndMsg.new,
            BleLLScanReqMsg.new, false⟩ : FromState) m).result with valid := true } := by
      unfold BlePacket.fromBytes
      rw [List.foldl_cons, e0, List.foldl_cons, e1, List.foldl_cons, e2,
        List.foldl_cons, e3, List.foldl_cons, e4, List.foldl_cons, e5,
        List.foldl_cons, e6, List.foldl_cons, e7, List.foldl_nil]
      rw [if_neg (by simp)]
      rw [if_neg (by simp [metaStep_pdu, ADV_TYPE_ADV_NONCONN_IND])]
      rw [if_neg (by simp [metaStep_pdu, ADV_TYPE_SCAN_REQ])]
    refine ⟨?_, ?_, ?_, ?_⟩
    · rw [hfb]; simp
    · rw [hfb]; simp
    · rw [hfb]
      show (metaStep _ m).result.packet_header.data_header = _
      rw [metaStep_data_header]
    · rw [hfb]
      show (metaStep _ m).result.packet_header.adv_header = _
      rw [metaStep_adv_header]
  · rintro bytes ⟨hd, ha⟩
    rw [fromBytes_packet_header] at hd ha
    have hinv := foldl_fromStep_exclusive bytes FromState.init
      (by simp [FromState.init, BlePacket.new, BlePacketHeader.new])
      (by simp [FromState.init, BlePacket.new, BlePacketHeader.new])
      (fun _ => ⟨rfl, rfl⟩)
    have h6 := hinv.1 hd
    have h2 := hinv.2 ha
    rw [h6] at h2
    simp [EVENT_PACKET_DATA_PDU, EVENT_PACKET_ADV_PDU] at h2

/-- Past the MAC region the loop body is exactly the payload step. -/
theorem fromStepCore_ge28 (s : FromState) (b : Nat) (h : 28 ≤ s.byte_index) :
    fromStepCore s b = payloadStep s b := by
  unfold fromStepCore
  rw [if_neg (by rintro ⟨h1, -⟩; omega)]
  rw [if_neg (by omega : ¬(s.byte_index = 2))]
  rw [if_neg (by omega : ¬(s.byte_index = 3))]
  rw [if_neg (by omega : ¬(s.byte_index = 4))]
  rw [if_neg (by omega : ¬(s.byte_index = 5))]
  rw [if_neg (by omega : ¬(s.byte_index = 7))]
  rw [if_neg (by omega : ¬(s.byte_index = 8))]
  rw [if_neg (by omega : ¬(s.byte_index = 9))]
  rw [if_neg (by omega : ¬(s.byte_index = 10))]
  rw [if_neg (by omega : ¬(s.byte_index = 11))]
  rw [if_neg (by omega : ¬(s.byte_index = 12))]
  rw [if_neg (by omega : ¬(s.byte_index = 13))]
  rw [if_neg (by omega : ¬(s.byte_index = 14))]
  rw [if_neg (by omega : ¬(s.byte_index = 15))]
  rw [if_neg (by omega : ¬(s.byte_index = 16))]
  rw [if_neg (by omega : ¬(s.byte_index = 17))]
  rw [if_neg (by omega : ¬(s.byte_index = 18))]
  rw [if_neg (by omega : ¬(s.byte_index = 19))]
  rw [if_neg (by omega : ¬(s.byte_index = 20))]
  rw [if_neg (by omega : ¬(s.byte_index = 21))]
  rw [if_neg (by rintro ⟨-, h2⟩; omega)]

/-- Within the payload budget of a NonConnectableAdvertisement, the
payload step is the TLV step plus the budget increment. -/
theorem payloadStep_tlv (s : FromState) (b : Nat)
    (hidx : s.ll_payload_index < s.ll_payload_len)
    (hpdu : s.result.ll_layer_data.pdu_type = ADV_TYPE_ADV_NONCONN_IND) :
    payloadStep s b =
      { tlvStep s b with ll_payload_index := (tlvStep s b).ll_payload_index + 1 } := by
  unfold payloadStep
  rw [if_pos hidx]
  simp only [if_pos hpdu]

/-- Past the MAC region of a NonConnectableAdvertisement with payload
budget left, one loop iteration is the TLV step plus the budget and
cursor increments. -/
theorem fromStep_tlv (s : FromState) (b : Nat) (hab : s.aborted = false)
    (hbi : 28 ≤ s.byte_index) :
    fromStep s b =
      { payloadStep s b with byte_index := (payloadStep s b).byte_index + 1 } := by
  have hcore := fromStepCore_ge28 s b hbi
  rw [fromStep_eq_core s b hab (by rw [hcore]; simp [hab])]
  rw [hcore]

theorem tlvStep_status0 (s : FromState) (b : Nat)
    (h : s.ll_payload_read_status = 0) :
    tlvStep s b =
      { s with ll_payload_info_len := b,
               ll_payload_info_index := 0,
               ll_payload_info_type := 0,
               ll_payload_read_status := 1,
               cache_bytes := [] } := by
  unfold tlvStep
  rw [if_pos h]

theorem tlvStep_status1 (s : FromState) (b : Nat)
    (h : s.ll_payload_read_status = 1) :
    tlvStep s b =
      { s with ll_payload_info_type := b,
               non_conn_ind_msg := { s.non_conn_ind_msg with advertising_types :=
                   s.non_conn_ind_msg.advertising_types ++ [b] },
               ll_payload_read_status := 2,
               ll_payload_info_index := s.ll_payload_info_index + 1 } := by
  unfold tlvStep
  rw [if_neg (by omega), if_pos h]

/-- The TLV value step: the info cursor advances, the reader returns to
status 0 exactly when the structure's declared length is exhausted, and
the recorded type-code sequence is untouched whatever the value byte
is. -/
theorem tlvStep_status2_proj (s : FromState) (b : Nat)
    (h : s.ll_payload_read_status = 2) :
    (tlvStep s b).non_conn_ind_msg.advertising_types =
      s.non_conn_ind_msg.advertising_types ∧
    (tlvStep s b).ll_payload_read_status =
      (if s.ll_payload_info_index + 1 = s.ll_payload_info_len then 0 else 2) ∧
    (tlvStep s b).ll_payload_info_index = s.ll_payload_info_index + 1 ∧
    (tlvStep s b).ll_payload_info_len = s.ll_payload_info_len ∧
    (tlvStep s b).result = s.result ∧
    (tlvStep s b).byte_index = s.byte_index ∧
    (tlvStep s b).ll_payload_index = s.ll_payload_index ∧
    (tlvStep s b).ll_payload_len = s.ll_payload_len ∧
    (tlvStep s b).aborted = s.aborted := by
  unfold tlvStep
  rw [if_neg (by omega), if_neg (by omega), if_pos h]
  refine ⟨?_, by simp [h], rfl, rfl, rfl, rfl, rfl, rfl, rfl⟩
  split_ifs <;> simp [apply_ite, nameUpdate_advertising_types]

/-- Reading an AD-structure length byte (status 0) past the MAC region of
a NonConnectableAdvertisement: the info registers are loaded and the
recorded data is untouched. -/
theorem fromStep_len_proj (s : FromState) (b : Nat) (hab : s.aborted = false)
    (hbi : 28 ≤ s.byte_index) (hidx : s.ll_payload_index < s.ll_payload_len)
    (hpdu : s.result.ll_layer_data.pdu_type = ADV_TYPE_ADV_NONCONN_IND)
    (hst : s.ll_payload_read_status = 0) :
    (fromStep s b).aborted = false ∧
    (fromStep s b).byte_index = s.byte_index + 1 ∧
    (fromStep s b).ll_payload_read_status = 1 ∧
    (fromStep s b).ll_payload_info_len = b ∧
    (fromStep s b).ll_payload_info_index = 0 ∧
    (fromStep s b).result = s.result ∧
    (fromStep s b).non_conn_ind_msg = s.non_conn_ind_msg ∧
    (fromStep s b).ll_payload_index = s.ll_payload_index + 1 ∧
    (fromStep s b).ll_payload_len = s.ll_payload_len := by
  rw [fromStep_tlv s b hab hbi, payloadStep_tlv s b hidx hpdu, tlvStep_status0 s b hst]
  exact ⟨hab, rfl, rfl, rfl, rfl, rfl, rfl, rfl, rfl⟩

/-- Reading an AD-structure type byte (status 1): the type code is
appended to the recorded sequence. -/
theorem fromStep_type_proj (s : FromState) (b : Nat) (hab : s.aborted = false)
    (hbi : 28 ≤ s.byte_index) (hidx : s.ll_payload_index < s.ll_payload_len)
    (hpdu : s.result.ll_layer_data.pdu_type = ADV_TYPE_ADV_NONCONN_IND)
    (hst : s.ll_payload_read_status = 1) :
    (fromStep s b).aborted = false ∧
    (fromStep s b).byte_index = s.byte_index + 1 ∧
    (fromStep s b).ll_payload_read_status = 2 ∧
    (fromStep s b).ll_payload_info_len = s.ll_payload_info_len ∧
    (fromStep s b).ll_payload_info_index = s.ll_payload_info_index + 1 ∧
    (fromStep s b).result = s.result ∧
    (fromStep s b).non_conn_ind_msg.advertising_types =
      s.non_conn_ind_msg.advertising_types ++ [b] ∧
    (fromStep s b).ll_payload_index = s.ll_payload_index + 1 ∧
    (fromStep s b).ll_payload_len = s.ll_payload_len := by
  rw [fromStep_tlv s b hab hbi, payloadStep_tlv s b hidx hpdu, tlvStep_status1 s b hst]
  exact ⟨hab, rfl, rfl, rfl, rfl, rfl, rfl, rfl, rfl⟩

/-- Reading an AD-structure value byte (status 2): the info cursor
advances, the reader closes the structure exactly when the declared
structure length is exhausted, and the recorded type codes never
change. -/
theorem fromStep_value (s : FromState) (b : Nat) (hab : s.aborted = false)
    (hbi : 28 ≤ s.byte_index) (hidx : s.ll_payload_index < s.ll_payload_len)
    (hpdu : s.result.ll_layer_data.pdu_type = ADV_TYPE_ADV_NONCONN_IND)
    (hst : s.ll_payload_read_status = 2) :
    (fromStep s b).aborted = false ∧
    (fromStep s b).byte_index = s.byte_index + 1 ∧
    (fromStep s b).ll_payload_read_status =
      (if s.ll_payload_info_index + 1 = s.ll_payload_info_len then 0 else 2) ∧
    (fromStep s b).ll_payload_info_len = s.ll_payload_info_len ∧
    (fromStep s b).ll_payload_info_index = s.ll_payload_info_index + 1 ∧
    (fromStep s b).result = s.result ∧
    (fromStep s b).non_conn_ind_msg.advertising_types =
      s.non_conn_ind_msg.advertising_types ∧
    (fromStep s b).ll_payload_index = s.ll_payload_index + 1 ∧
    (fromStep s b).ll_payload_len = s.ll_payload_len := by
  obtain ⟨t1, t2, t3, t4, t5, t6, t7, t8, t9⟩ := tlvStep_status2_proj s b hst
  rw [fromStep_tlv s b hab hbi, payloadStep_tlv s b hidx hpdu]
  refine ⟨?_, ?_, ?_, ?_, ?_, ?_, ?_, ?_, ?_⟩ <;>
    simp only [t1, t2, t3, t4, t5, t6, t7, t8, t9, hab]

/-- Running the value bytes of one open AD structure (status 2, with
exactly the remaining declared bytes supplied): the reader consumes them
all, returns to status 0, and records nothing new. -/
theorem tlv_values_run (vs : List Nat) : ∀ s : FromState,
    s.aborted = false → 28 ≤ s.byte_index → s.ll_payload_read_status = 2 →
    s.result.ll_layer_data.pdu_type = ADV_TYPE_ADV_NONCONN_IND →
    s.ll_payload_index + vs.length ≤ s.ll_payload_len →
    s.ll_payload_info_index + vs.length = s.ll_payload_info_len →
    vs ≠ [] →
    (vs.foldl fromStep s).aborted = false ∧
    (vs.foldl fromStep s).ll_payload_read_status = 0 ∧
    (vs.foldl fromStep s).result = s.result ∧
    (vs.foldl fromStep s).non_conn_ind_msg.advertising_types =
      s.non_conn_ind_msg.advertising_types ∧
    (vs.foldl fromStep s).ll_payload_index = s.ll_payload_index + vs.length ∧
    (vs.foldl fromStep s).ll_payload_len = s.ll_payload_len ∧
    28 ≤ (vs.foldl fromStep s).byte_index := by
  induction vs with
  | nil => intro s _ _ _ _ _ _ hvne; exact absurd rfl hvne
  | cons v rest ih =>
    intro s hab hbi hst hpdu hbud hinfo _
    simp only [List.length_cons] at hbud hinfo
    obtain ⟨p1, p2, p3, p4, p5, p6, p7, p8, p9⟩ :=
      fromStep_value s v hab hbi (by omega) hpdu hst
    rw [List.foldl_cons]
    rcases rest with _ | ⟨v2, rest2⟩
    · simp only [List.foldl_nil]
      simp only [List.length_nil] at hbud hinfo
      rw [if_pos (by omega : s.ll_payload_info_index + 1 = s.ll_payload_info_len)] at p3
      refine ⟨p1, p3, p6, p7, ?_, p9, by omega⟩
      rw [p8]
      simp only [List.length_cons, List.length_nil]
    · rw [if_neg (by simp only [List.length_cons] at hinfo; omega)] at p3
      obtain ⟨q1, q2, q3, q4, q5, q6, q7⟩ :=
        ih (fromStep s v) p1 (by omega) p3 (by rw [p6]; exact hpdu)
          (by rw [p8, p9]; simp only [List.length_cons] at hbud ⊢; omega)
          (by rw [p4, p5]; simp only [List.length_cons] at hinfo ⊢; omega)
          (by simp)
      refine ⟨q1, q2, ?_, ?_, ?_, ?_, q7⟩
      · rw [q3, p6]
      · rw [q4, p7]
      · rw [q5, p8]
        simp only [List.length_cons]
        omega
      · rw [q6, p9]

/-- The on-wire form of one AD structure `(type, values)`: a length byte
covering the type byte plus the value bytes, the type byte, then the
value bytes. -/
def encodeAdStruct (st : Nat × List Nat) : List Nat :=
  (st.2.length + 1) :: st.1 :: st.2

/-- The on-wire form of a sequence of AD structures. -/
def encodeAdStructs (structs : List (Nat × List Nat)) : List Nat :=
  (structs.map encodeAdStruct).flatten

/-- Running one complete AD structure with at least one value byte from
status 0: its type code is appended to the recorded sequence and the
reader returns to status 0. -/
theorem tlv_struct_run (t : Nat) (vs : List Nat) (s : FromState)
    (hab : s.aborted = false) (hbi : 28 ≤ s.byte_index)
    (hst : s.ll_payload_read_status = 0)
    (hpdu : s.result.ll_layer_data.pdu_type = ADV_TYPE_ADV_NONCONN_IND)
    (hbud : s.ll_payload_index + (encodeAdStruct (t, vs)).length ≤ s.ll_payload_len)
    (hvne : vs ≠ []) :
    ((encodeAdStruct (t, vs)).foldl fromStep s).aborted = false ∧
    ((encodeAdStruct (t, vs)).foldl fromStep s).ll_payload_read_status = 0 ∧
    ((encodeAdStruct (t, vs)).foldl fromStep s).result = s.result ∧
    ((encodeAdStruct (t, vs)).foldl fromStep s).non_conn_ind_msg.advertising_types =
      s.non_conn_ind_msg.advertising_types ++ [t] ∧
    ((encodeAdStruct (t, vs)).foldl fromStep s).ll_payload_index =
      s.ll_payload_index + (encodeAdStruct (t, vs)).length ∧
    ((encodeAdStruct (t, vs)).foldl fromStep s).ll_payload_len = s.ll_payload_len ∧
    28 ≤ ((encodeAdStruct (t, vs)).foldl fromStep s).byte_index := by
  simp only [encodeAdStruct, List.length_cons] at hbud ⊢
  obtain ⟨p1, p2, p3, p4, p5, p6, p7, p8, p9⟩ :=
    fromStep_len_proj s (vs.length + 1) hab hbi (by omega) hpdu hst
  rw [List.foldl_cons]
  obtain ⟨r1, r2, r3, r4, r5, r6, r7, r8, r9⟩ :=
    fromStep_type_proj (fromStep s (vs.length + 1)) t p1 (by omega) (by omega)
      (by rw [p6]; exact hpdu) p3
  rw [List.foldl_cons]
  obtain ⟨q1, q2, q3, q4, q5, q6, q7⟩ :=
    tlv_values_run vs (fromStep (fromStep s (vs.length + 1)) t) r1 (by omega)
      r3 (by rw [r6, p6]; exact hpdu) (by omega) (by omega) hvne
  refine ⟨q1, q2, ?_, ?_, ?_, ?_, q7⟩
  · rw [q3, r6, p6]
  · rw [q4, r7, p7]
  · rw [q5, r8, p8]
    omega
  · rw [q6, r9, p9]

/-- Running a sequence of AD structures, each with at least one value
byte, from status 0: every type code is appended to the recorded
sequence, in order. -/
theorem tlv_structs_run (structs : List (Nat × List Nat)) : ∀ s : FromState,
    (∀ st ∈ structs, st.2 ≠ []) →
    s.aborted = false → 28 ≤ s.byte_index → s.ll_payload_read_status = 0 →
    s.result.ll_layer_data.pdu_type = ADV_TYPE_ADV_NONCONN_IND →
    s.ll_payload_index + (encodeAdStructs structs).length ≤ s.ll_payload_len →
    ((encodeAdStructs structs).foldl fromStep s).aborted = false ∧
    ((encodeAdStructs structs).foldl fromStep s).result = s.result ∧
    ((encodeAdStructs structs).foldl fromStep s).non_conn_ind_msg.advertising_types =
      s.non_conn_ind_msg.advertising_types ++ structs.map Prod.fst := by
  induction structs with
  | nil =>
    intro s _ hab _ _ _ _
    simp [encodeAdStructs, hab]
  | cons st rest ih =>
    intro s hne hab hbi hst hpdu hbud
    obtain ⟨t, vs⟩ := st
    simp only [encodeAdStructs, List.map_cons, List.flatten_cons, List.foldl_append,
      List.length_append] at hbud ⊢
    obtain ⟨p1, p2, p3, p4, p5, p6, p7⟩ :=
      tlv_struct_run t vs s hab hbi hst hpdu (by omega)
        (hne (t, vs) (List.mem_cons_self _ _))
    obtain ⟨q1, q2, q3⟩ :=
      ih ((encodeAdStruct (t, vs)).foldl fromStep s)
        (fun st hm => hne st (List.mem_cons_of_mem _ hm))
        p1 p7 p2 (by rw [p3]; exact hpdu)
        (by rw [p5, p6]; simp only [encodeAdStructs]; omega)
    simp only [encodeAdStructs] at q1 q2 q3
    refine ⟨q1, ?_, ?_⟩
    · rw [q2, p3]
    · rw [q3, p4]
      rw [List.append_assoc]
      simp

/-- Running the six MAC bytes (all zero) of the
NonConnectableAdvertisement frame family: the advertising MAC stays
all-zero, the payload cursor advances to 6, and the byte index reaches
the TLV region, whatever the declared payload length `n` is. -/
theorem nonconn_mac_zeros (n : Nat) :
    List.foldl fromStep
      (⟨n, 0, 0, 0, 0, 0, prefixResult 2, [], 22, BleLLNonConnIndMsg.new,
        BleLLScanReqMsg.new, false⟩ : FromState) [0, 0, 0, 0, 0, 0] =
      ⟨n, 6, 0, 0, 0, 0, prefixResult 2, [], 28, BleLLNonConnIndMsg.new,
        BleLLScanReqMsg.new, false⟩ := by
  have h0 : fromStep (⟨n, 0, 0, 0, 0, 0, prefixResult 2, [], 22, BleLLNonConnIndMsg.new, BleLLScanReqMsg.new, false⟩ : FromState) 0 = (⟨n, 1, 0, 0, 0, 0, prefixResult 2, [], 23, BleLLNonConnIndMsg.new, BleLLScanReqMsg.new, false⟩ : FromState) := by rfl
  have h1 : fromStep (⟨n, 1, 0, 0, 0, 0, prefixResult 2, [], 23, BleLLNonConnIndMsg.new, BleLLScanReqMsg.new, false⟩ : FromState) 0 = (⟨n, 2, 0, 0, 0, 0, prefixResult 2, [], 24, BleLLNonConnIndMsg.new, BleLLScanReqMsg.new, false⟩ : FromState) := by rfl
  have h2 : fromStep (⟨n, 2, 0, 0, 0, 0, prefixResult 2, [], 24, BleLLNonConnIndMsg.new, BleLLScanReqMsg.new, false⟩ : FromState) 0 = (⟨n, 3, 0, 0, 0, 0, prefixResult 2, [], 25, BleLLNonConnIndMsg.new, BleLLScanReqMsg.new, false⟩ : FromState) := by rfl
  have h3 : fromStep (⟨n, 3, 0, 0, 0, 0, prefixResult 2, [], 25, BleLLNonConnIndMsg.new, BleLLScanReqMsg.new, false⟩ : FromState) 0 = (⟨n, 4, 0, 0, 0, 0, prefixResult 2, [], 26, BleLLNonConnIndMsg.new, BleLLScanReqMsg.new, false⟩ : FromState) := by rfl
  have h4 : fromStep (⟨n, 4, 0, 0, 0, 0, prefixResult 2, [], 26, BleLLNonConnIndMsg.new, BleLLScanReqMsg.new, false⟩ : FromState) 0 = (⟨n, 5, 0, 0, 0, 0, prefixResult 2, [], 27, BleLLNonConnIndMsg.new, BleLLScanReqMsg.new, false⟩ : FromState) := by rfl
  have h5 : fromStep (⟨n, 5, 0, 0, 0, 0, prefixResult 2, [], 27, BleLLNonConnIndMsg.new, BleLLScanReqMsg.new, false⟩ : FromState) 0 = (⟨n, 6, 0, 0, 0, 0, prefixResult 2, [], 28, BleLLNonConnIndMsg.new, BleLLScanReqMsg.new, false⟩ : FromState) := by rfl
  rw [List.foldl_cons, h0, List.foldl_cons, h1, List.foldl_cons, h2, List.foldl_cons, h3, List.foldl_cons, h4, List.foldl_cons, h5, List.foldl_nil]

/-- The NonConnectableAdvertisement frame family carrying a sequence of
AD structures: the 21-byte prefix, the payload-length byte (six MAC bytes
plus the encoded structures), the raw-uart padding byte, six zero MAC
bytes, then the encoded structures. -/
def nonconnAdFrame (structs : List (Nat × List Nat)) : List Nat :=
  nonconnPrefix ++ (6 + (encodeAdStructs structs).length) :: 0 ::
    ([0, 0, 0, 0, 0, 0] ++ encodeAdStructs structs)

/-- When the loop does not abort and leaves PDU type
NonConnectableAdvertisement, `BlePacket::from` attaches the accumulated
advertisement message to the result. -/
theorem fromBytes_nonconn_proj (bytes : List Nat)
    (h1 : (bytes.foldl fromStep FromState.init).aborted = false)
    (h2 : (bytes.foldl fromStep FromState.init).result.ll_layer_data.pdu_type =
      ADV_TYPE_ADV_NONCONN_IND) :
    (BlePacket.fromBytes bytes).ll_layer_data.non_conn_ind =
      some (bytes.foldl fromStep FromState.init).non_conn_ind_msg := by
  unfold BlePacket.fromBytes
  dsimp only
  split_ifs with hA
  · rw [h1] at hA
    exact absurd hA (by simp)
  · rfl

/-- Claim C8 counterexample: a NonConnectableAdvertisement payload of two
well-formed AD structures — a length-1 structure (type 0xAA, no value
bytes) followed by a length-2 structure (type 9, one value byte) — whose
sizes exactly fill the declared payload length 11.  The decoder records
only the first type code: a structure with no value bytes leaves the
reader stuck in value-reading state, so the second structure's bytes are
consumed as value bytes and its type code 9 is never recorded. -/
theorem claim_C8_counterexample :
    ((BlePacket.fromBytes (nonconnPrefix ++
        [11, 0, 0, 0, 0, 0, 0, 0, 1, 0xAA, 2, 9, 0x41])).ll_layer_data.non_conn_ind).map
      (fun m => m.advertising_types) = some [0xAA] ∧
    some [0xAA] ≠ some [0xAA, 9] := by
  exact ⟨by decide, by decide⟩

/-- Claim C8 (amended): for a NonConnectableAdvertisement link-layer
payload consisting of AD structures that each carry at least one value
byte (declared structure length at least 2) and whose sizes together
exactly fill the declared payload length, decoding records all the type
codes in `advertising_types`, in the order the structures appear,
regardless of whether each type code is recognized.  (With a zero-value
structure the reader never returns to the length-reading state, so the
original claim fails; see the counterexample.) -/
theorem claim_C8_amended (structs : List (Nat × List Nat))
    (hne : ∀ st ∈ structs, st.2 ≠ [])
    (hsz : (encodeAdStructs structs).length + 6 ≤ 255) :
    ((BlePacket.fromBytes (nonconnAdFrame structs)).ll_layer_data.non_conn_ind).map
      (fun m => m.advertising_types) = some (structs.map Prod.fst) := by
  have hfold : List.foldl fromStep FromState.init (nonconnAdFrame structs) =
      List.foldl fromStep
        (⟨6 + (encodeAdStructs structs).length, 6, 0, 0, 0, 0, prefixResult 2, [],
          28, BleLLNonConnIndMsg.new, BleLLScanReqMsg.new, false⟩ : FromState)
        (encodeAdStructs structs) := by
    unfold nonconnAdFrame
    rw [List.foldl_append, foldl_nonconnPrefix, List.foldl_cons, nonconn_step_len,
      List.foldl_cons,
      nonconn_step_noop (6 + (encodeAdStructs structs).length) 0 (by omega),
      List.foldl_append, nonconn_mac_zeros]
  obtain ⟨q1, q2, q3⟩ :=
    tlv_structs_run structs
      (⟨6 + (encodeAdStructs structs).length, 6, 0, 0, 0, 0, prefixResult 2, [],
        28, BleLLNonConnIndMsg.new, BleLLScanReqMsg.new, false⟩ : FromState)
      hne rfl (Nat.le_refl 28) rfl rfl (Nat.le_refl _)
  rw [fromBytes_nonconn_proj _ (by rw [hfold]; exact q1) (by rw [hfold, q2]; rfl)]
  rw [hfold]
  simp only [Option.map_some']
  rw [q3]
  simp [BleLLNonConnIndMsg.new]

/-- Concrete instance of the amended claim C8 at two AD structures with
one and two value bytes. -/
theorem claim_C8_witness :
    (∀ st ∈ ([(1, [6]), (255, [76, 0])] : List (Nat × List Nat)), st.2 ≠ []) ∧
    (encodeAdStructs ([(1, [6]), (255, [76, 0])] : List (Nat × List Nat))).length + 6 ≤ 255 ∧
    ((BlePacket.fromBytes
        (nonconnAdFrame ([(1, [6]), (255, [76, 0])] : List (Nat × List Nat)))).ll_layer_data.non_conn_ind).map
      (fun m => m.advertising_types) =
      some (([(1, [6]), (255, [76, 0])] : List (Nat × List Nat)).map Prod.fst) :=
  ⟨by decide, by decide, claim_C8_amended _ (by decide) (by decide)⟩
